import Mathlib

set_option maxRecDepth 100000
set_option maxHeartbeats 2000000

/-!
Verification of the EffectivePython snippet repository against its
natural-language description.

The development shallowly embeds the three most elaborate snippets of the
repository — the quota-bucket example (item30.py), the MapReduce toy example
(item24.py) and the mix-in dict/JSON serialization example (item26.py) — and,
for the file-level structural statements, the verbatim lines of every file
under src/.

Modelling conventions:
  - Python integers are `Int`; `datetime.now()` values and `timedelta`
    periods are integer timestamps and durations (only their difference and
    comparison are used by the code).
  - a failing `assert` statement is `Option.none`;
  - JSON numbers are `Rat`: every numeric literal appearing in the snippets
    is exactly representable, and `json.dumps` followed by `json.loads` is
    taken to be the identity on parsed JSON trees (Python round-trips both
    `int` and `float` values exactly through their decimal representation).
-/
namespace Item30

/-- State of the first, plain-attribute `Bucket` of item30.py (lines 7-11):
`period_delta` (seconds of the quota period), `reset_time` (timestamp of the
start of the current period) and the plain `quota` attribute. -/
structure Bucket0 where
  period_delta : Int
  reset_time : Int
  quota : Int
deriving DecidableEq, Repr

/-- Construction `Bucket(period)` at time `now` (lines 8-11): the quota starts
at 0 and the period begins at the construction time. -/
def Bucket0.fresh (now period : Int) : Bucket0 :=
  { period_delta := period, reset_time := now, quota := 0 }

/-- Function `fill(bucket, amount)` (item30.py lines 17-22) on the plain
bucket, with `datetime.now()` passed in as `now`: when the period has expired
the quota is zeroed and `reset_time` is set to `0` (exactly as line 21 writes
it), then `quota += amount`. -/
def fill0 (now : Int) (b : Bucket0) (amount : Int) : Bucket0 :=
  let b1 := if now - b.reset_time > b.period_delta then
    { b with quota := 0, reset_time := 0 } else b
  { b1 with quota := b1.quota + amount }

/-- Function `deduct(bucket, amount)` (item30.py lines 25-32) on the plain
bucket: `False` when the period has expired or the quota would go negative,
otherwise the amount is deducted and the call returns `True`. -/
def deduct0 (now : Int) (b : Bucket0) (amount : Int) : Bucket0 × Bool :=
  if now - b.reset_time > b.period_delta then (b, false)
  else if b.quota - amount < 0 then (b, false)
  else ({ b with quota := b.quota - amount }, true)

/-- State of the second, `@property`-based `Bucket` of item30.py
(lines 60-65): `quota` is no longer stored; `max_quota` and `quota_consumed`
are. -/
structure Bucket1 where
  period_delta : Int
  reset_time : Int
  max_quota : Int
  quota_consumed : Int
deriving DecidableEq, Repr

/-- Construction of the property-based `Bucket(period)` at time `now`
(lines 61-65). -/
def Bucket1.fresh (now period : Int) : Bucket1 :=
  { period_delta := period, reset_time := now, max_quota := 0,
    quota_consumed := 0 }

/-- Getter of the `quota` property (item30.py lines 71-73). -/
def Bucket1.quota (b : Bucket1) : Int := b.max_quota - b.quota_consumed

/-- Setter of the `quota` property (item30.py lines 75-89).  The two `assert`
statements (lines 84 and 88) are modelled as `none` on failure. -/
def setQuota (b : Bucket1) (amount : Int) : Option Bucket1 :=
  let delta := b.max_quota - amount
  if amount = 0 then some { b with quota_consumed := 0, max_quota := 0 }
  else if delta < 0 then
    if b.quota_consumed = 0 then some { b with max_quota := amount } else none
  else
    if b.max_quota ≥ b.quota_consumed then
      some { b with quota_consumed := b.quota_consumed + delta }
    else none

/-- The same `fill` function (lines 17-22) applied to the property-based
bucket: every read of `bucket.quota` goes through the getter and every write
through the setter. -/
def fill1 (now : Int) (b : Bucket1) (amount : Int) : Option Bucket1 :=
  let afterReset : Option Bucket1 :=
    if now - b.reset_time > b.period_delta then
      (setQuota b 0).map (fun b2 => { b2 with reset_time := 0 })
    else some b
  afterReset.bind (fun b1 => setQuota b1 (b1.quota + amount))

/-- The same `deduct` function (lines 25-32) applied to the property-based
bucket. -/
def deduct1 (now : Int) (b : Bucket1) (amount : Int) : Option (Bucket1 × Bool) :=
  if now - b.reset_time > b.period_delta then some (b, false)
  else if b.quota - amount < 0 then some (b, false)
  else (setQuota b (b.quota - amount)).map (fun b2 => (b2, true))

/-- One call of `fill` or `deduct`, tagged with the `datetime.now()` timestamp
at which it runs and with its `amount` argument. -/
inductive Op where
  | fill (now amount : Int)
  | deduct (now amount : Int)
deriving DecidableEq, Repr

/-- Timestamp at which an operation runs. -/
def Op.time : Op → Int
  | .fill t _ => t
  | .deduct t _ => t

/-- Argument `amount` of an operation. -/
def Op.amount : Op → Int
  | .fill _ a => a
  | .deduct _ a => a

/-- One step on the plain bucket; the second component is the boolean returned
by `deduct` (`none` for `fill`, which returns nothing). -/
def step0 (b : Bucket0) : Op → Bucket0 × Option Bool
  | .fill t a => (fill0 t b a, none)
  | .deduct t a => ((deduct0 t b a).1, some (deduct0 t b a).2)

/-- Observable trace of a call sequence on the plain bucket: after every call,
the value the bucket reports for `quota`, paired with the boolean result when
the call was a `deduct`. -/
def trace0 (b : Bucket0) : List Op → List (Int × Option Bool)
  | [] => []
  | op :: ops =>
    let s := step0 b op
    (s.1.quota, s.2) :: trace0 s.1 ops

/-- Final state of the plain bucket after a call sequence. -/
def run0 (b : Bucket0) : List Op → Bucket0
  | [] => b
  | op :: ops => run0 (step0 b op).1 ops

/-- One step on the property-based bucket; `none` when an `assert` in the
quota setter fails. -/
def step1 (b : Bucket1) : Op → Option (Bucket1 × Option Bool)
  | .fill t a => (fill1 t b a).map (fun b2 => (b2, none))
  | .deduct t a => (deduct1 t b a).map (fun s => (s.1, some s.2))

/-- Observable trace of a call sequence on the property-based bucket: the
value reported by the `quota` property after every call, paired with the
boolean result when the call was a `deduct`; `none` as soon as an `assert`
fails. -/
def trace1 (b : Bucket1) : List Op → Option (List (Int × Option Bool))
  | [] => some []
  | op :: ops =>
    match step1 b op with
    | none => none
    | some s => (trace1 s.1 ops).map (fun t => (s.1.quota, s.2) :: t)

/-- Final state of the property-based bucket after a call sequence (`none` as
soon as an `assert` fails). -/
def run1 (b : Bucket1) : List Op → Option Bucket1
  | [] => some b
  | op :: ops =>
    match step1 b op with
    | none => none
    | some s => run1 s.1 ops

/-- Call sequence refuting the transparency of the refactoring: fill 3, then
deduct 1 twice, all at the construction time (well within one period). -/
def cexOps : List Op := [.fill 0 3, .deduct 0 1, .deduct 0 1]

/-- Call sequence driving the property-based bucket to a state with
`quota_consumed > max_quota` and a negative quota, all amounts positive and
all calls within one period. -/
def invOps : List Op := [.fill 0 3, .deduct 0 1, .deduct 0 1, .fill 0 1]

end Item30
namespace Item24

/-- State of a `LineCountWorker` (item24.py lines 23-26 and 115-118: both
`Worker.__init__` and `GenericWorker.__init__` store the input-data object
and set `self.result = None`).  The `PathInputData` object is modelled by the
string its `read()` returns. -/
structure LineCountWorker where
  input_data : String
  result : Option Int
deriving DecidableEq, Repr

/-- Constructor `Worker(input_data)` / `GenericWorker(input_data)`
(lines 24-26 and 116-118): the result attribute starts as `None`. -/
def LineCountWorker.new (d : String) : LineCountWorker :=
  { input_data := d, result := none }

/-- The newline character counted by `data.count` in `map`. -/
def newlineChar : Char := Char.ofNat 10

/-- Model of `data.count` applied to a newline (item24.py line 38 / 137). -/
def countNewlines (s : String) : Nat :=
  s.data.countP (fun c => c == newlineChar)

/-- Body of `LineCountWorker.map` (item24.py lines 36-38, identical at lines
135-137): it reads the input data, computes the newline count into the local
variable `count`, and — exactly as the file writes it — never assigns
`self.result`.  The model returns the worker state after the call together
with the value of the local variable when the method returns. -/
def LineCountWorker.map (w : LineCountWorker) : LineCountWorker × Nat :=
  let data := w.input_data
  let count := countNewlines data
  (w, count)

/-- Events of `execute(workers)` (item24.py lines 56-64) in program order for
`n` workers: line 57 creates one `Thread` per worker, line 58 starts every
thread, line 59 joins every thread, and lines 61-63 then run `reduce` once
for each of the `n - 1` workers after the first.  No other synchronization
primitive appears in the function. -/
inductive ThreadEvent where
  | create : ThreadEvent
  | start : ThreadEvent
  | joinThread : ThreadEvent
  | reduceCall : ThreadEvent
deriving DecidableEq, Repr

/-- Straight-line event sequence of `execute(workers)` with `n` workers. -/
def executeEvents (n : Nat) : List ThreadEvent :=
  List.replicate n .create ++ List.replicate n .start ++
    List.replicate n .joinThread ++ List.replicate (n - 1) .reduceCall

end Item24

namespace Item24

/-- Model of `PathInputData.read` (item24.py lines 19-20, identical at lines
105-106): the body is exactly `return open(self.path).read()`, with no
surrounding exception handler.  `openF` models the `open` builtin (which may
raise an I/O error `E` or return a file handle `H`) and `readF` models the
`.read()` call on the handle (which may also raise). -/
def pathInputDataRead {H E : Type} (openF : String → Except E H)
    (readF : H → Except E String) (path : String) : Except E String :=
  (openF path).bind readF

end Item24
namespace Item26

mutual
/-- Tree of parsed JSON values, the result of `json.loads` (item26.py uses
`json` at lines 91 and 95).  Numbers are `Rat`: Python round-trips both
`int` and `float` exactly through their decimal representations, and every
numeric literal of the file is exactly representable.  Objects keep the key
order in which Python's parser inserts them into the dict. -/
inductive Json where
  | null : Json
  | boolean : Bool → Json
  | num : Rat → Json
  | str : String → Json
  | arr : JsonArr → Json
  | obj : JsonObj → Json
inductive JsonArr where
  | nil : JsonArr
  | cons : Json → JsonArr → JsonArr
inductive JsonObj where
  | nil : JsonObj
  | cons : String → Json → JsonObj → JsonObj
end

/-- Number of fields of a parsed object (the number of keyword arguments
`cls(**kwargs)` passes). -/
def lenObj : JsonObj → Nat
  | .nil => 0
  | .cons _ _ rest => lenObj rest + 1

/-- Dictionary lookup of a key in a parsed object (keyword-argument passing
looks fields up by name; parsed dicts have pairwise distinct keys, so the
first match is the only one). -/
def getKey : JsonObj → String → Option Json
  | .nil, _ => none
  | .cons k v rest, key => if k = key then some v else getKey rest key

/-- Byte-wise order on the character lists of two keys, used only to
canonicalize parsed objects: Python `dict` equality — the equality
`json.loads(serialized) == json.loads(roundtrip)` of item26.py line 128 —
ignores key order, so parses are compared after sorting every object's
fields by key. -/
def charLe (a b : Char) : Bool := a.val ≤ b.val

/-- Lexicographic order on keys. -/
def keyLe : List Char → List Char → Bool
  | [], _ => true
  | _ :: _, [] => false
  | a :: as, b :: bs => if a = b then keyLe as bs else charLe a b

/-- Insertion into a key-sorted field list. -/
def insObj (k : String) (v : Json) : JsonObj → JsonObj
  | .nil => .cons k v .nil
  | .cons k2 v2 rest =>
    if keyLe k.data k2.data then .cons k v (.cons k2 v2 rest)
    else .cons k2 v2 (insObj k v rest)

/-- Insertion sort of an object's fields by key. -/
def sortObj : JsonObj → JsonObj
  | .nil => .nil
  | .cons k v rest => insObj k v (sortObj rest)

mutual
/-- Canonical form of a parsed JSON tree: every object's fields sorted by
key, recursively.  Two duplicate-free parses are equal as Python values iff
their canonical forms are equal. -/
def canon : Json → Json
  | .null => .null
  | .boolean b => .boolean b
  | .num q => .num q
  | .str s => .str s
  | .arr xs => .arr (canonArr xs)
  | .obj fs => .obj (sortObj (canonObj fs))
def canonArr : JsonArr → JsonArr
  | .nil => .nil
  | .cons j rest => .cons (canon j) (canonArr rest)
def canonObj : JsonObj → JsonObj
  | .nil => .nil
  | .cons k v rest => .cons k (canon v) (canonObj rest)
end

def switchKey : String := "switch"

def machinesKey : String := "machines"

def portsKey : String := "ports"

def speedKey : String := "speed"

def coresKey : String := "cores"

def ramKey : String := "ram"

def diskKey : String := "disk"

/-- A `Switch` instance (item26.py lines 107-110): `__init__` assigns
`ports` then `speed`, so `__dict__` holds the two attributes in that
order.  The claim under verification restricts the attribute values to
numbers, which `ToDictMixin._traverse` returns unchanged (line 31). -/
structure Switch where
  ports : Rat
  speed : Rat
deriving DecidableEq, Repr

/-- A `Machine` instance (item26.py lines 112-116): attributes `cores`,
`ram`, `disk` in assignment order. -/
structure Machine where
  cores : Rat
  ram : Rat
  disk : Rat
deriving DecidableEq, Repr

/-- A `DatacenterRack` instance (item26.py lines 101-105): a `Switch` built
from the `switch` keyword argument and a list of `Machine`s built from the
`machines` keyword argument. -/
structure DatacenterRack where
  switch : Switch
  machines : List Machine
deriving DecidableEq, Repr

/-- Construction `Switch(**switch)` inside `DatacenterRack.__init__`
(line 103): the parsed value must be an object whose keys are exactly
`ports` and `speed` (any other keyword set raises `TypeError`); per the
claim's hypothesis both values are numbers. -/
def switchFromJson : Json → Option Switch
  | .obj fs =>
    if lenObj fs = 2 then
      match getKey fs portsKey, getKey fs speedKey with
      | some (.num p), some (.num s) => some { ports := p, speed := s }
      | _, _ => none
    else none
  | _ => none

/-- Construction `Machine(**kwargs)` (line 105): keys exactly `cores`,
`ram`, `disk`, numeric values. -/
def machineFromJson : Json → Option Machine
  | .obj fs =>
    if lenObj fs = 3 then
      match getKey fs coresKey, getKey fs ramKey, getKey fs diskKey with
      | some (.num c), some (.num r), some (.num d) =>
        some { cores := c, ram := r, disk := d }
      | _, _, _ => none
    else none
  | _ => none

/-- The list comprehension `[Machine(**kwargs) for kwargs in machines]`
(lines 104-105). -/
def machinesFromJson : JsonArr → Option (List Machine)
  | .nil => some []
  | .cons j rest =>
    (machineFromJson j).bind (fun m =>
      (machinesFromJson rest).map (fun L => m :: L))

/-- Model of `DatacenterRack.from_json` (JsonMixin, lines 89-92, applied at
line 126): parse, then `cls(**kwargs)` with keys exactly `switch` and
`machines`, the former an object, the latter a list. -/
def rackFromJson : Json → Option DatacenterRack
  | .obj fs =>
    if lenObj fs = 2 then
      match getKey fs switchKey, getKey fs machinesKey with
      | some sj, some (.arr ms) =>
        (switchFromJson sj).bind (fun sw =>
          (machinesFromJson ms).map (fun L =>
            { switch := sw, machines := L }))
      | _, _ => none
    else none
  | _ => none

/-- Output of `Switch.to_dict` (`ToDictMixin`, lines 11-31): `__dict__` is
traversed in attribute order, and the numeric attribute values take the
final `else: return value` branch of `_traverse` (lines 30-31). -/
def Switch.toDict (s : Switch) : Json :=
  .obj (.cons portsKey (.num s.ports) (.cons speedKey (.num s.speed) .nil))

/-- Output of `Machine.to_dict`. -/
def Machine.toDict (m : Machine) : Json :=
  .obj (.cons coresKey (.num m.cores)
    (.cons ramKey (.num m.ram) (.cons diskKey (.num m.disk) .nil)))

/-- The list branch of `_traverse` (line 27) applied to the machines list:
each `Machine` is a `ToDictMixin` instance, so it becomes its `to_dict`. -/
def machinesToJson : List Machine → JsonArr
  | [] => .nil
  | m :: rest => .cons (Machine.toDict m) (machinesToJson rest)

/-- Parse of the output of `DatacenterRack.to_json` (JsonMixin, lines
94-95): `json.dumps(self.to_dict())`, with `json.loads ∘ json.dumps` the
identity on parsed trees, is the `to_dict` tree itself: the `switch`
attribute is a `ToDictMixin` (line 23), the `machines` attribute a list
(line 27). -/
def rackToDict (r : DatacenterRack) : Json :=
  .obj (.cons switchKey r.switch.toDict
    (.cons machinesKey (.arr (machinesToJson r.machines)) .nil))

/-- Does a parsed value have the shape the claim quantifies over for one
machine: an object with numeric `cores`, `ram` and `disk` (exactly those
keys, as `Machine(**kwargs)` requires)? -/
def isNumMachineObj : Json → Bool
  | .obj fs =>
    (lenObj fs == 3) &&
      (match getKey fs coresKey, getKey fs ramKey, getKey fs diskKey with
       | some (.num _), some (.num _), some (.num _) => true
       | _, _, _ => false)
  | _ => false

/-- Shape of the `switch` value: an object with numeric `ports` and
`speed`. -/
def isNumSwitchObj : Json → Bool
  | .obj fs =>
    (lenObj fs == 2) &&
      (match getKey fs portsKey, getKey fs speedKey with
       | some (.num _), some (.num _) => true
       | _, _ => false)
  | _ => false

/-- Does every element of a parsed array satisfy `p`? -/
def arrAll (p : Json → Bool) : JsonArr → Bool
  | .nil => true
  | .cons j rest => p j && arrAll p rest

/-- Shape of inputs the claim quantifies over: an object with key `switch`
mapped to an object with numeric `ports` and `speed`, and key `machines`
mapped to a list of objects each with numeric `cores`, `ram` and `disk`. -/
def rackShape : Json → Bool
  | .obj fs =>
    (lenObj fs == 2) &&
      (match getKey fs switchKey, getKey fs machinesKey with
       | some sj, some (.arr ms) => isNumSwitchObj sj && arrAll isNumMachineObj ms
       | _, _ => false)
  | _ => false

end Item26
namespace SourceText

/-- Verbatim lines of src/item1.py. -/
def item1_py : List String := [
  "# Item 1: Know Which Version Of Python You\x27re Using",
  "",
  "# Besides using the CLI-switch to get the Python version\x27s info (python --version",
  "# or python3 --version, respectively), the sys module provides access to the",
  "# version info:",
  "#  sys.version: Version string",
  "#  sys.version_info: Tuple containing major, minor, micro, releaselevel and serial",
  "#  components",
  "",
  "import sys",
  "print(sys.version)",
  "print(sys.version_info)",
  "",
  "# 3.5.0 (v3.5.0:374f501f4567, Sep 13 2015, 02:16:59) [MSC v.1900 32 bit (Intel)]",
  " # sys.version_info(major=3, minor=5, micro=0, releaselevel=\x27final\x27, serial=0)"]

/-- Verbatim lines of src/item2.py. -/
def item2_py : List String := [
  "# Item 2: Follow the PEP 8 Style Guide",
  "",
  "# Most important rules from PEP 8.",
  "# Selection:",
  "# Continuation of long expressions should be intended by another 4 spaces from normal indentation level.",
  "#",
  "# lowercase_underscore naming for functions, variables and attributes.",
  "# _leading_underscore for protected instance attributes.",
  "# __double_leading_underscore for private instance attributes.",
  "# CapitalizationLikeThis for classes and exceptions.",
  "#",
  "# Check for empty values like \x27if not somelist\x27 instead of \x27if len(somelist) == 0\x27.",
  "# Conversely, Check for non-empty values like \x27if somelist\x27.",
  "# Imports in order: standard library, third party, own modules.",
  "#",
  "# Use Pylint to check compliance with PEP 8.",
  ""]

/-- Verbatim lines of src/item3.py. -/
def item3_py : List String := [
  "# Item 3: Know the Differences Between bytes, str, and unicode",
  "",
  "# Python 3 distinguishes between bytes and str for sequences of characters. bytes are raw 8-bit values, str",
  "# unicode-encoded. # str does not have an # associated binary encoding. In programs that require both representations",
  "# often, it is useful to # have two helper functions to perform the conversion.",
  "",
  "def to_str(bytes_or_str):",
  "    if isinstance(bytes_or_str, bytes):",
  "        value = bytes_or_str.decode(\x27utf-8\x27)",
  "    else:",
  "        value = bytes_or_str",
  "    return value",
  "",
  "def to_bytes(bytes_or_str):",
  "    if isinstance(bytes_or_str, str):",
  "        value = bytes_or_str.encode(\x27utf-8\x27)",
  "    else:",
  "        value = bytes_or_str",
  "    return value",
  "",
  "if __name__ == \x27__main__\x27:",
  "    text = \"Hello world\"",
  "    as_bytes = to_bytes(text)",
  "    print(type(as_bytes))",
  "    as_str = to_str(as_bytes)",
  "    print(type(as_str))",
  "",
  "# Further, in Python 3 file handles default to utf-8. It is thus not possible to write binary data.",
  "# To be able to write bytes, open with mode \x27wb\x27 instead and read with \x27rb\x27.",
  ""]

/-- Verbatim lines of src/item4.py. -/
def item4_py : List String := [
  "# Item 4: Write Helper Functions Instead of Complex Expressions",
  "",
  "# Example: Parse parameters of an URL.",
  "",
  "from urllib.parse import parse_qs",
  "my_values = parse_qs(\x27red=5&blue=0&green=\x27,",
  "                     keep_blank_values=True)",
  "print(repr(my_values))",
  "",
  "# Suppose you want to print the URL parameters\x27 values",
  "print(\x27Red:     \x27, my_values.get(\x27red\x27))",
  "print(\x27Green:    \x27, my_values.get(\x27green\x27))",
  "print(\x27Opacity:   \x27, my_values.get(\x27opacity\x27))",
  "",
  "# Red:      [\x275\x27]",
  "# Green:     [\x27\x27]",
  "# Opacity:    None",
  "",
  "# Now, empty values should default to 0 instead of \x27\x27 or None. What is the best way to achieve this?",
  "# First option is to provide a default parameter to the get function and check for its return value:",
  "red = my_values.get(\x27red\x27, [\x27\x27])[0] or 0",
  "green = my_values.get(\x27green\x27, [\x27\x27])[0] or 0",
  "opacity = my_values.get(\x27opacity\x27, [\x27\x27])[0] or 0",
  "print(\x27Red:     %r\x27 % red)",
  "print(\x27Green:   %r\x27 % green)",
  "print(\x27Opacity: %r\x27 % opacity)",
  "",
  "# Red:     \x275\x27",
  "# Green:   0",
  "# Opacity: 0",
  "",
  "# Yet, this code is difficult to read, especially if you want the values as ints:",
  "red = int(my_values.get(\x27red\x27, [\x27\x27])[0] or 0)",
  "green = int(my_values.get(\x27green\x27, [\x27\x27])[0] or 0)",
  "opacity = int(my_values.get(\x27opacity\x27, [\x27\x27])[0] or 0)",
  "",
  "# A better way would be to at least split this into two expressions, second being a ternary one, e.g.:",
  "red = my_values.get(\x27red\x27, [\x27\x27])",
  "red = int(red[0]) if red[0] else 0",
  "",
  "# However, if you use this logic more often, a helper function is a better choice:",
  "def get_first_int(values, key, default=0):",
  "    found = values.get(key, [\x27\x27])",
  "    if found:",
  "        found = found[0]",
  "    else:",
  "        found = default",
  "    return found",
  "",
  "# Which can be used like:",
  "red = get_first_int(my_values, \x27red\x27)",
  "",
  "# Helper functions improve readability of the code compared to complex expressions. ",
  "",
  "",
  "",
  "",
  "",
  ""]

/-- Verbatim lines of src/item5.py. -/
def item5_py : List String := [
  "# Item 5: Know How to Slice Sequences",
  "",
  "a = [\x27a\x27, \x27b\x27, \x27c\x27, \x27d\x27, \x27e\x27, \x27f\x27, \x27g\x27, \x27h\x27]",
  "print(\x27First Four:\x27, a[:4])",
  "print(\x27Last Four:\x27, a[-4:])",
  "print(\x27Middle two:\x27, a[3:-3])",
  "",
  "# Starting 0 is not necessary:",
  "assert a[0:5] == a[:5]",
  "",
  "# Neither is end:",
  "assert a[5:] == a[5:len(a)]",
  "",
  "# Some examples",
  "a           # [\x27a\x27, \x27b\x27, \x27c\x27, \x27d\x27, \x27e\x27, \x27f\x27, \x27g\x27, \x27h\x27]",
  "a[:5]       # [\x27a\x27, \x27b\x27, \x27c\x27, \x27d\x27, \x27e\x27]",
  "a[:-1]      # [\x27a\x27, \x27b\x27, \x27c\x27, \x27d\x27, \x27e\x27, \x27f\x27, \x27g\x27]",
  "a[4:]       # [\x27e\x27, \x27f\x27, \x27g\x27, \x27h\x27]",
  "a[-3:]      # [\x27f\x27, \x27g\x27, \x27h\x27]",
  "a[2:5]      # [\x27c\x27, \x27d\x27, \x27e\x27]",
  "a[2:-1]     # [\x27c\x27, \x27d\x27, \x27e\x27, \x27f\x27, \x27g\x27]",
  "a[-3:-1]    # [\x27f\x27, \x27g\x27]",
  "",
  "# Exceeding the boundaries causes no exceptions:",
  "first_twenty_items = a[:20] # == a",
  "last_twenty_items = a[-20:] # == a",
  "",
  "# Slicing can be used in assignments one way or the other:",
  "b, c = a[:2]  # b=\x27a\x27, c=\x27b\x27",
  "a[3:6] = \x27i\x27  # [\x27a\x27, \x27b\x27, \x27c\x27, \x27i\x27, \x27g\x27, \x27h\x27] - \x27d\x27 replaced, \x27e\x27 and \x27f\x27 missing",
  "a = [\x27a\x27, \x27b\x27, \x27c\x27, \x27d\x27, \x27e\x27, \x27f\x27, \x27g\x27, \x27h\x27]",
  "a[3:6] = [\x27i\x27, \x27i\x27, \x27i\x27]  # [\x27a\x27, \x27b\x27, \x27c\x27, \x27i\x27, \x27i\x27, \x27i\x27, \x27g\x27, \x27h\x27] - all three placed with \x27i\x27",
  "",
  "# Without boundaries, slicing returns the original sequence",
  "assert a == a[:]",
  ""]

/-- Verbatim lines of src/item6.py. -/
def item6_py : List String := [
  "# Item 6: Avoid Using start, end and stride in a Single Slice",
  "",
  "# Using a third parameter it is possible to select every n\x27th element in a slice operation",
  "a = [\x27red\x27, \x27orange\x27, \x27yellow\x27, \x27green\x27, \x27blue\x27, \x27purple\x27]",
  "odds = a[::2]  # [\x27red\x27, \x27yellow\x27, \x27blue\x27]",
  "evens = a[1::2]  # [\x27orange\x27, \x27green\x27, \x27purple\x27]",
  "",
  "# A common trick to reverse a byte string is the use of -1.",
  "# # This however does not work for unicode characters encoded as UTF-8 strings.",
  "x = b\x27mongoose\x27",
  "y = x[::-1]  # b\x27esoognom\x27",
  "",
  "# While this is easy to understand, other slice operations are harder to understand, especially when all three",
  "# parameters are provided and/or when they are negative:",
  "a = [\x27a\x27, \x27b\x27, \x27c\x27, \x27d\x27, \x27e\x27, \x27f\x27, \x27g\x27, \x27h\x27]",
  "a[2::2]         # [\x27c\x27, \x27e\x27, \x27g\x27]",
  "a[-2::-2]       # [\x27g\x27, \x27e\x27, \x27c\x27, \x27a\x27]",
  "a[-2:2:-2]      # [\x27g\x27, \x27e\x27]",
  "a[2:2:-2]       # []",
  "",
  "# Such slice operations should be avoided to maintain readability. A better way is to separate into a slice and",
  "# a stride operation, e.g.:",
  "b = a[::2]      # [\x27a\x27, \x27c\x27, \x27e\x27, \x27g\x27]",
  "c = b[1:-1]     # [\x27c\x27, \x27e\x27]",
  "",
  "# If this method is too costly from a memory or runtime perspective, \x27islice\x27 of the package \x27itertools\x27 poses",
  "# an alternative that doesn\x27t permit negative start/end/stride values.",
  "",
  "",
  "",
  "",
  "",
  ""]

/-- Verbatim lines of src/item7.py. -/
def item7_py : List String := [
  "# Item 7: Use List Comprehensions Instead of map and filter",
  "",
  "# E.g.",
  "a = [1, 2, 3, 4, 5, 6, 7, 8, 9, 10]",
  "squares = [x**2 for x in a]",
  "",
  "# is preferable to",
  "squares = map(lambda x: x**2, a)",
  "",
  "# as creating a lambda function is more visually noisy. Also, it is easier to perform a filtering step, e.g.:",
  "even_squares = [x**2 for x in a if x % 2 == 0]",
  "",
  "# is easier to read than",
  "even_squares = map(lambda x: x**2, filter(lambda x: x % 2 == 0, a))",
  "",
  "",
  "# Dictionaries and sets have equivalents for list comprehensions:",
  "chile_ranks = \x7b\x27ghost\x27: 1, \x27habanero\x27: 2, \x27cayenne\x27: 3\x7d",
  "rank_dict = \x7brank: name for name, rank in chile_ranks.items()\x7d  # Reversal of keys/values",
  "chile_len_set = \x7blen(name) for name in rank_dict.values()\x7d  # Lengths of chili names",
  "",
  "print(chile_ranks)",
  "print(rank_dict)",
  "print(chile_len_set)",
  ""]

/-- Verbatim lines of src/item8.py. -/
def item8_py : List String := [
  "# Item 8: Avoid More Than Two Expressions in List Comprehensions",
  "",
  "# The following two uses of two expressions in list comprehensions are readable:",
  "matrix = [[1, 2, 3], [4, 5, 6], [7, 8, 9]]",
  "flat = [x for row in matrix for x in row]",
  "print(flat)",
  "",
  "squared = [[x**2 for x in row] for row in matrix]",
  "print(squared)",
  "",
  "# The following with three is not as much:",
  "my_lists = [",
  "    [[1, 2, 3], [4, 5, 6]]#, ...",
  "]",
  "",
  "flat = [x for sublist1 in my_lists",
  "        for sublist2 in sublist1",
  "        for x in sublist2]",
  "",
  "# Replacing this with normal loop statements makes it more readable:",
  "flat = []",
  "for sublist1 in my_lists:",
  "    for sublist2 in sublist1:",
  "        flat.extend(sublist2)",
  "",
  "",
  "# Using conditionals in list comprehensions is fine in cases like this:",
  "a = [1, 2, 3, 4, 5, 6, 7, 8, 9]",
  "b = [x for x in a if x > 4 if x % 2 == 0]",
  "c = [x for x in a if x > 4 and x % 2 == 0] # equivalent to b",
  "",
  "# In nested comprehensions, however, they harm the readability:",
  "matrix = [[1, 2, 3], [4, 5, 6], [7, 8, 9]]",
  "filtered = [[x for x in row if x % 3 == 0]",
  "            for row in matrix if sum(row) >= 10]",
  "print(filtered)",
  "",
  "# The resulting rule of thumb is to avoid more than two expressions in list comprehensions, be it conditions",
  "# or loops. Not following that rule makes it much harder for others to read your code and saving a few lines",
  "# doesn\x27t outweigh this."]

/-- Verbatim lines of src/item9.py. -/
def item9_py : List String := [
  "# Item 9: Consider Generator Expressions for Large Comprehensions",
  "",
  "# For very large input, list comprehensions that may create an output item for a good proportion of their input",
  "# items, can be very memory-intensive. An example for this is the line-wise reading and counting of line length",
  "# for an enormous input file.",
  "value = [len(x) for x in open(\x27/tmp/somelargefile.txt\x27)]",
  "",
  "# To solve this problem, Python offers generator expressions which don\x27t evaluate to a whole new list at once,",
  "# but return an iterator that yields one element at a time. Above example can be rewritten to use a generator",
  "# like the following, basically simply replacing [] with ():",
  "it = (len(x) for x in open(\x27/tmp/somelargefile.txt\x27))",
  "",
  "# Values can be retrieved using the next() call:",
  "next(it)",
  "",
  "# One caveat is that the returned iterators are stateful, so they cannot be used more than once (see item 17)."]

/-- Verbatim lines of src/item10.py. -/
def item10_py : List String := [
  "# Item 10: Prefer enumerate Over range",
  "",
  "# range is useful for iterating over a set of integers, e.g.:",
  "for i in range(10):",
  "    print(i**2)",
  "",
  "# It\x27s possible to iterate directly over a sequence, e.g.:",
  "flavor_list = [\x27vanilla\x27, \x27chocolate\x27, \x27pecan\x27, \x27strawberry\x27]",
  "for flavor in flavor_list:",
  "    print(\x27%s is delicious\x27 % flavor)",
  "",
  "# If you want to iterate over a list and also know the item\x27s index, sometimes the range function is used:",
  "for i in range(len(flavor_list)):",
  "    flavor = flavor_list[i]",
  "    print(\x27%d: %s\x27 % (i+1, flavor))",
  "",
  "# However, replacing this with enumerate - which returns a lazy generator - makes the code more readable:",
  "for i, flavor in enumerate(flavor_list):",
  "    print(\x27%d: %s\x27 % (i+1, flavor))",
  "",
  "# Alternatively, if the counting should start at 1, this can be passed as the second parameter to enumerate:",
  "for i, flavor in enumerate(flavor_list, 1):",
  "    print(\x27%d: %s\x27 % (i, flavor))"]

/-- Verbatim lines of src/item11.py. -/
def item11_py : List String := [
  "# Item 11: Use zip to Process Iterators in Parallel",
  "",
  "# Suppose you have two related lists",
  "names = [\x27Cecilia\x27, \x27Lise\x27, \x27Marie\x27]",
  "letters = [len(n) for n in names]",
  "",
  "# One way to iterate over both lists is to iterate over the length of the first. The following is an example for",
  "# this and looks for the name with the maximum length:",
  "longest_name = None",
  "max_letters = 0",
  "",
  "for i in range(len(names)):",
  "    count = letters[i]",
  "    if count > max_letters:",
  "        longest_name = names[i]",
  "        max_letters = count",
  "",
  "print(longest_name)",
  "",
  "# This however is visually noisy, using enumerate (as in item 10) improves this slightly as it removes one",
  "# indexing operation:",
  "for i, name in enumerate(names):",
  "    count = letters[i]",
  "    if count > max_letters:",
  "        longest_name = name",
  "        max_letters = count",
  "",
  "# Using the built-in zip function, which wraps iterators together, this can be expressed more clearly:",
  "for name, count in zip(names, letters):",
  "    if count > max_letters:",
  "        longest_name = name",
  "        max_letters = count",
  "",
  "# One caveat is that zip will only return values until one iterator is exhausted, so if there are still items",
  "# in the other list, these won\x27t be returned.",
  "names.append(\x27Rosalind\x27)",
  "for name, count in zip(names, letters):",
  "    print(name)  # will only print until \x27Marie\x27",
  "",
  "#  In such cases, itertool\x27s zip_longest may be considered as an alternative."]

/-- Verbatim lines of src/item12.py. -/
def item12_py : List String := [
  "# Item 12: Avoid else blocks after for and while loops",
  "",
  "# Python has the unusual feature of allowing else blocks right after loops:",
  "for i in range(3):",
  "    print(\x27Loop: %d\x27 % i)",
  "else:",
  "    print(\x27Else Block\x27)",
  "",
  "# Output:",
  "# Loop: 0",
  "# Loop: 1",
  "# Loop: 2",
  "# Else Block",
  "",
  "# Contrary to what one might expect, the else block executes every time the loop has completed, even if there were",
  "# no iterations:",
  "for x in []:",
  "    print(\x27Never runs\x27)",
  "else:",
  "    print(\x27For else block\x27)",
  "",
  "# Output:",
  "# For else block",
  "",
  "# The else block will only then be skipped if the loop is exited early using break, e.g.:",
  "a = 4",
  "b = 9",
  "for i in range(2, min(a, b) + 1):",
  "    print(\x27Testing\x27, i)",
  "    if a % i == 0 and b % i == 0:",
  "        print(\x27Not coprime\x27)",
  "        break",
  "else:",
  "    print(\x27Coprime\x27)",
  "",
  "# Output:",
  "# Testing 2",
  "# Testing 3",
  "# Testing 4",
  "# Coprime",
  "",
  "# Using this approach is not recommended. Instead, using a helper function will make the code more readable:",
  "def coprime(a, b):",
  "    for i in range(2, min(a, b) + 1):",
  "        if a % i == 0 and b % i == 0:",
  "            return False",
  "    return True",
  "",
  "# Alternatively, one can use a result variable:",
  "def coprime2(a, b):",
  "    is_coprime = True",
  "    for i in range(2, min(a, b) + 1):",
  "        if a % i == 0 and b % i == 0:",
  "            is_coprime = False",
  "            break",
  "    return is_coprime",
  "",
  "# Both approaches are much better to understand and thus should be preferred over the for/else construct.",
  "",
  "",
  ""]

/-- Verbatim lines of src/item13.py. -/
def item13_py : List String := [
  "# Item 13: Take Advantage of Each Block in try/except/else/finally",
  "",
  "import json",
  "",
  "# Use try/finally when the exception should be propagated up, but cleanup code should be executed before, e.g.:",
  "handle = open(\x27/tmp/somefile.txt\x27)",
  "try:",
  "    data = handle.read()",
  "finally:",
  "    handle.close()",
  "",
  "# In this example, it is important to open the handle before the try block to make sure that the close operation",
  "# does not cause an IOError in the finally block.",
  "",
  "# Use try/except/else to make clear which exceptions are propagated up and which are handled by your code, e.g.:",
  "def load_json_key(data, key):",
  "    try:",
  "        result_dict = json.loads(data)",
  "    except ValueError as e:",
  "        raise KeyError from e",
  "    else:",
  "        return result_dict[key]",
  "",
  "# If the JSON is not valid, the except block will catch and handle it. If they key lookup fails, the resulting",
  "# exception is propagated up and not handled by the method.",
  "",
  "",
  "# An all-together-example. Read description from a file, process and update it.",
  "# try: Read and process",
  "# except: Handle exceptions",
  "# else: Update file, let unhandled exceptions propagate",
  "# finally: Closes file handle",
  "UNDEFINED = object()",
  "",
  "def divide_json(path):",
  "    handle = open(path)             # May raise IOError",
  "    try:",
  "        data = handle.read()        # May raise UnicodeDecodeError",
  "        op = json.loads(data)       # May raise ValueError",
  "        value = (",
  "            op[\x27numerator\x27] /",
  "            op[\x27denominaor\x27])       # May raise ZeroDivisionError",
  "    except ZeroDivisionError as e:",
  "        return UNDEFINED",
  "    else:",
  "        op[\x27result\x27] = value",
  "        result = json.dumps(op)",
  "        handle.seek(0)",
  "        handle.write(result)        # May raise IOError",
  "        return value",
  "    finally:",
  "        handle.close()              # Always runs, even if else throws an exception",
  "",
  "",
  ""]

/-- Verbatim lines of src/item14.py. -/
def item14_py : List String := [
  "# Item 14: Prefer Exceptions to Returning None",
  "",
  "# Sometimes in writing methods, a special meaning is assigned to None as a return value, e.g.:",
  "def divide(a, b):",
  "    try:",
  "        return a/b",
  "    except ZeroDivisionError:",
  "        return None",
  "",
  "# The return value can be interpreted accordingly:",
  "result = divide(2, 0)",
  "if result is None:",
  "    print(\x27Invalid inputs\x27)",
  "",
  "# However, this can introduce ambiguity. Suppose you look only for False equivalents instead of only Nones:",
  "result = divide(0, 2)",
  "if not result:",
  "    print(\x27Invalid Inputs!\x27)  # This is wrong, should be 0",
  "",
  "# A workaround would be to return a tuple instead, where the first value indicates a failure and the second",
  "# contains the result:",
  "def divide(a, b):",
  "    try:",
  "        return True, a/b",
  "    except ZeroDivisionError:",
  "        return False, None",
  "",
  "# However, callers may ignore the first part and miss the error. A better way is to raise an exception and",
  "# have the caller deal with it. This, of course, should be documented. E.g:",
  "def divide(a, b):",
  "    try:",
  "        return a/b",
  "    except ZeroDivisionError as e:",
  "        raise ValueError(\x27Invalid inputs\x27) from e",
  "",
  "# Now, the caller checks for an exception and if there is none, the return value must be good:",
  "try:",
  "    result = divide(5, 2)",
  "except ValueError:",
  "    print(\x27Invalid inputs\x27)",
  "else:",
  "    print(\x27Result is %.1f\x27 % result)",
  "",
  ""]

/-- Verbatim lines of src/item15.py. -/
def item15_py : List String := [
  "# Item 15: Know How Closures Interact with Variable Scope",
  "",
  "# Suppose you want to sort a list of numbers and prioritize based on the group to which they belong.",
  "# This can be done by passing a helper function (key) to sort which leads to sort returning the items",
  "# from the group first. E.g:",
  "",
  "def sort_priority(numbers, group):",
  "    def helper(x):",
  "        if x in group:",
  "            return (0, x)",
  "        return (1, x)",
  "    numbers.sort(key=helper)",
  "",
  "numbers = [8, 3, 1, 2, 5, 4, 7, 6]",
  "group = \x7b2, 3, 5, 7\x7d",
  "sort_priority(numbers, group)",
  "print(numbers)",
  "",
  "# There are three things to note here:",
  "# - helper as a so-called closure can access variables from the scope within which it is defined, in this case",
  "# it uses this to access the group set.",
  "# - Functions are first-class objects and can therefore (besides e.g. assigning them to variables, using them in",
  "# if statements etc.) be passed as a parameter to a function. In this case, helper is passed to sort.",
  "# - Python compares tuples based on their index, so tuples (0, x) come before (1, x).",
  "",
  "# Suppose you also want to know whether the sorted numbers were from separate groups at all to act accordingly.",
  "# A wrong way to try this using a flag is the following:",
  "",
  "def sort_priority2(numbers, group):",
  "    found = False           # Scope: \x27sort_priority2\x27",
  "    def helper(x):",
  "        if x in group:",
  "            found = True    # Scope: \x27helper\x27",
  "            return(0, x)",
  "        return (1, x)",
  "    numbers.sort(key=helper)",
  "    return found",
  "",
  "# This won\x27t work, because in the scope of helper, found is regarded as a new variable instead of assigning",
  "# a new value to sort_priority2\x27s found variable. This is referred to as the \"scoping bug\", because it is",
  "# surprising to newcomers, however it is well intended as to prevent pollution of the containing module.",
  "",
  "# A working alternative is to declare the variable as nonlocal in the helper function. This will look for the",
  "# variable in the enclosing scope in an assignment, but unlike global not traverse up to the global namespace",
  "# as to avoid pollution of globals.",
  "",
  "def sort_priority3(numbers, group):",
  "    found = False",
  "    def helper(x):",
  "        nonlocal found",
  "        if x in group:",
  "            found = True",
  "            return (0, x)",
  "        return (1,x)",
  "    numbers.sort(key=helper)",
  "    return found",
  "",
  "",
  "# Similar to the advice to avoid global variables, the use of nonlocal should be restricted to very simple functions",
  "# as it can become hard to follow the side effects of nonlocal in more complex code. So, in more complicated",
  "# situations a wrapper class is a better solution:",
  "class Sorter(object):",
  "    def __init__(self, group):",
  "        self.group = group",
  "        self.found = False",
  "",
  "    def __call__(self, x):",
  "        if x in self.group:",
  "            self.found = True",
  "            return (0, x)",
  "        return (1, x)",
  "",
  "sorter = Sorter(group)",
  "numbers.sort(key=sorter)",
  "assert sorter.found is True",
  "",
  "",
  "# Important: The nonlocal keyword does not exist in Python 2. Here, an ugly work-around is to use a list instead, i.e.",
  "# found = [False] in the declaration and found[0] = True in the assignment. The reason this works is that found[0] is",
  "# a reference to a variable, which will look not only in the current\x27s function scope, but traverse up and find it",
  "# in the enclosing function. Therefore, no new variable is created, but a new value assigned to the existing found."]

/-- Verbatim lines of src/item16.py. -/
def item16_py : List String := [
  "# Item 16: Consider Generators Instead of Returning Lists",
  "from itertools import islice",
  "",
  "# Suppose you want to write a function that returns the indexes of every word in a string. Using a list this",
  "# could look like:",
  "def index_words(text):",
  "    result = []",
  "    if text:",
  "        result.append(0)",
  "    for index, letter in enumerate(text):",
  "        if letter == \x27 \x27:",
  "            result.append(index + 1)",
  "    return result",
  "",
  "address = \x27Four score and seven years ago...\x27",
  "result = index_words(address)",
  "print(result)",
  "",
  "# There are however two problems with this approach.",
  "# First: Verbosity",
  "# Only about half of the function body is concerned with the actual task. The rest of it creates, populates and returns",
  "# the resulting list. By writing a generator function this becomes much shorter and better to read:",
  "def index_words_iter(text):",
  "    if text:",
  "        yield 0",
  "    for index, letter in enumerate(text):",
  "        if letter == \x27 \x27:",
  "            yield index + 1",
  "",
  "# A user might prefer to get a list returned instead. This is easily possible, e.g:",
  "result = list(index_words_iter(address))",
  "",
  "# Second: Memory shortage",
  "# If the list of results is too large to fit into memory, the application will crash before returning from the",
  "# function call. With a generator the input can be arbitrarily large. Suppose you want to write a function that",
  "# takes as input a file handle and outputs the word indices one at a time:",
  "def index_file(handle):",
  "    offset = 0",
  "    for line in handle:",
  "        if line:",
  "            yield offset",
  "        for letter in line:",
  "            offset += 1",
  "            if letter == \x27 \x27:",
  "                yield offset",
  "",
  "with open(\x27/tmp/somefile\x27, \x27r\x27) as f:",
  "    it = index_file(f)",
  "    results = islice(it, 0, 3)",
  "    print(list(results))",
  "",
  "# Keep in mind that iterators are stateful and can\x27t be reused.",
  ""]

/-- Verbatim lines of src/item17.py. -/
def item17_py : List String := [
  "# Item 17: Be Defensive When Iterating Over Arguments",
  "",
  "# Sometimes you want to iterate over a parameter to a function twice, e.g. to normalize some input. An example",
  "# would be to calculate the share of total visitors each city has.",
  "def normalize(numbers):",
  "    total = sum(numbers)",
  "    result = []",
  "    for number in numbers:",
  "        percent = number * 100 / total",
  "        result.append(percent)",
  "    return result",
  "",
  "visits = [15, 35, 80]",
  "percentages = normalize(visits)",
  "print(percentages)",
  "",
  "# This works well if numbers is passed as a container. However, if you read in the numbers via a generator",
  "# for reasons as described in item 16, the normalize function won\x27t work.",
  "def read_visits(data_path):",
  "    with open(data_path) as f:",
  "        for line in f:",
  "            yield line",
  "",
  "it = read_visits(\x27/tmp/somefile\x27)",
  "percentages = normalize(it)",
  "print(it)",
  "",
  "# The results list will be empty, because the iterator is exhausted after the iteration caused by calling sum.",
  "# What\x27s more, the function will not even throw an error. A way around this is to make a copy of the input at",
  "# the beginning of the normalize function:",
  "def normalize_copy(numbers):",
  "    numbers = list(numbers)     # Copy the iterator",
  "    total = sum(numbers)",
  "    result = []",
  "    for number in numbers:",
  "        percent = number * 100 / total",
  "        result.append(percent)",
  "    return result",
  "",
  "# This version will work correctly with an iterator as input. However, this is not a very elegant solution",
  "# as it doubles the memory usage and could cause the program to run out of memory. An ugly work-around is to accept",
  "# a function as input which will return an iterator every time it is called:",
  "def normalize_func(get_iter):",
  "    total = sum(get_iter())     # New iterator",
  "    result = []",
  "    for number in get_iter():",
  "        percent = number * 100 / total",
  "        result.append(percent)",
  "    return result",
  "",
  "# With the previously defined read_visits function, a call to normalize_func could look like this:",
  "percentages = normalize_func(lambda path: read_visits(path))",
  "",
  "# Still, this is clumsy from the perspective of the user of the function.",
  "# A better way to achieve the same result is to implement a container class that implements the iterator protocol.",
  "# The iterator protocol is how Python handles traversals in for loops etc. in general. A call like for x in foo",
  "# will call iter(foo) to get an iterator for foo (iter in turn will call foo.__iter__). For this to work, foo\x27s",
  "# class must implement the __iter__ method to return an iterator. The for loop can then subsequently call __next__",
  "# to receive the next elements.",
  "# For our case, the wrapper class could look like this:",
  "class ReadVisits(object):",
  "    def __init__(self, data_path):",
  "        self.data_path = data_path",
  "",
  "    def __iter__(self):",
  "        with open(self.data_path):",
  "            for line in f:",
  "                yield int(line)",
  "",
  "# This can be passed to the unmodified normalize function:",
  "visits = ReadVisits(\x27/tmp/somefile\x27)",
  "percentages = normalize(visits)",
  "",
  "# This works because a new iterator will be created for every loop, in this case for the summation and the iteration",
  "# over each value.",
  "",
  "# Finally, we can defend our function against normal iterators to ensure it works correctly:",
  "def normalize_defensive(numbers):",
  "    if iter(numbers) is iter(numbers):              # Must be an iterator!",
  "        raise TypeError(\x27Must supply a container\x27)",
  "    total = sum(numbers)",
  "    result = []",
  "    for number in numbers:",
  "        percent = number * 100 / total",
  "        result.append(percent)",
  "    return result",
  "",
  "# This will work for lists, ReadVisits and generally any object that implements the iterator protocol.",
  "",
  "visits = [15, 35, 80]",
  "percentages = normalize(visits)     # No error",
  "visits = ReadVisits(\x27/tmp/somefile\x27)",
  "percentages = normalize(visits)     # No error",
  "it = iter(visits)",
  "percentages = normalize(it)         # TypeError: Must supply a container",
  "",
  "# Another take-away of this item is that you can easily implement your own iterable container type by implementing",
  "# the __iter__ method as a generator.",
  ""]

/-- Verbatim lines of src/item18.py. -/
def item18_py : List String := [
  "# Item 18: Reduce Visual Noise with Variable Positional Arguments",
  "",
  "# Suppose you want to write a function for logging debug information with a message and optional list of values:",
  "def log(message, values):",
  "    if not values:",
  "        print(message)",
  "    else:",
  "        values_str = \x27, \x27.join(str(x) for x in values)",
  "        print(\x27%s: %s\x27 % (message, values_str))",
  "",
  "log(\x27My numbers are\x27, [1, 2])",
  "log(\x27Hi there\x27, [])",
  "",
  "# Having to pass an empty list if there are no values is noisy. It is possible to make the parameter optional by",
  "# turning it into a so-called star argument:",
  "def log(message, *values):",
  "    if not values:",
  "        print(message)",
  "    else:",
  "        values_str = \x27, \x27.join(str(x) for x in values)",
  "        print(\x27%s: %s\x27 % (message, values_str))",
  "",
  "log(\x27My numbers are\x27, [1, 2])",
  "log(\x27Hi there\x27)     # Much better",
  "",
  "# If you already have a list that you want to pass as values parameter, it can be done like this:",
  "favorites = [7, 33, 99]",
  "log(\x27Favorite colors\x27, *favorites)",
  "",
  "# There are two problems with accepting positional arguments.",
  "# First: Python will turn the arguments into a tuple. If you pass an iterator, it will iterate over it until it is",
  "# exhausted and pass the values as a list. This produces the same memory shortage problem that we have seen in e.g.",
  "# item 16. hus, positional arguments are best suited for cases where you know that the number of variable arguments is",
  "# small.",
  "def my_generator():",
  "    for i in range(10):",
  "        yield i",
  "",
  "def my_func(*args):",
  "    print(args)",
  "",
  "it = my_generator()",
  "my_func(*it)",
  "",
  "# (0, 1, 2, 3, 4, 5, 6, 7, 8, 9)",
  "",
  "# Second problem: Adding positional argument to the function requires migrating every caller. If you add a positional",
  "# argument in front, all calls that are not migrated for this change will break. Example:",
  "",
  "def log(sequence, message, *values):",
  "    if not values:",
  "        print(\x27%s: %s\x27 % (sequence, message))",
  "    else:",
  "        values_str = \x27, \x27.join(str(x) for x in values)",
  "        print(\x27%s: %s: %s\x27 % (sequence, message, values_str))",
  "",
  "log(1, \x27Favorites\x27, 7, 33)      # New usage is OK",
  "log(\x27Favorite numbers\x27, 7, 33)  # Old usage breaks",
  "",
  "# In the second call, 7 is mistakenly treated as the message. Bugs like these are hard to trace as they don\x27t cause",
  "# an exception.",
  "",
  "# To summarize, *args should be used to function usage convenient to use and easy to read, but you have to be",
  "# cautious when adding new positional arguments or passing generators.",
  ""]

/-- Verbatim lines of src/item19.py. -/
def item19_py : List String := [
  "# Item 19: Provide Optional Behavior with Keyword Arguments",
  "",
  "# Like in most languages, arguments in Python can be passed by position:",
  "def remainder(number, divisor):",
  "    return number % divisor",
  "",
  "assert remainder(20, 7) == 6",
  "",
  "# Positional arguments can also be called with keywords, i.e. the name of the arguments, as long as all positional",
  "# arguments are specified. E.g.:",
  "remainder(20, 7)",
  "remainder(20, divisor=7)",
  "remainder(number=20, divisor=7)",
  "remainder(divisor=7, number=20)",
  "",
  "# Positional arguments must be specified before keyword arguments:",
  "remainder(number=20, 7)     # SyntaxError: non-keyword arg after keyword arg",
  "",
  "# Each argument can only be specified once:",
  "remainder(20, number=7)     # TypeError: remainder() got multiple values for argument \x27number\x27",
  "",
  "# The first advantage of keywords arguments is that they make the code easier to read, because you don\x27t need to know",
  "# the function definition to know which argument is which.",
  "# A second advantage is that they can have default values specified. This allows to enable additional capabilities while",
  "# providing good default behavior at the same time.",
  "",
  "# Example: Compute the rate of a fluid flowing into a vat. If the vat is on a scale, you can use the weight and time",
  "# difference between two measurements to calculate the flow rate.",
  "def flow_rate(weight_diff, time_diff):",
  "    return weight_diff / time_diff",
  "",
  "weight_diff = 0.5",
  "time_diff = 3",
  "flow = flow_rate(weight_diff, time_diff)",
  "print(\x27%.3f kg per second\x27 % flow)",
  "",
  "# Usually, the user will want to know the flow per second. However sometimes other time scales might be interesting.",
  "# This functionality can be added using a third parameter called period:",
  "def flow_rate(weight_diff, time_diff, period):",
  "    return (weight_diff / time_diff) * period",
  "",
  "# But this requires the user to include the parameter in the function call every time:",
  "flow_per_second = flow_rate(weight_diff, time_diff, 1)",
  "",
  "# This can be made less noisy by giving period a default value:",
  "def flow_rate(weight_diff, time_diff, period=1):",
  "     return (weight_diff / time_diff) * period",
  "",
  "flow_per_second = flow_rate(weight_diff, time_diff)",
  "flow_per_hour = flow_rate(weight_diff, time_diff, period=3600)",
  "",
  "# A third advantage is that keyword parameters allow to extend the function\x27s parameters without having to migrate",
  "# the function calls. In this example, the flow_rate function is modified to calculate other units than kilograms:",
  "def flow_rate(weight_diff, time_diff, period=1, units_per_kg=2.2):",
  "    return ((weight_diff / units_per_kg) / time_diff) * period",
  "",
  "# The remaining problem is that the optional arguments can be passed as positional arguments, making it unclear",
  "# what their values correspond to, e.g:",
  "pounds_per_hours = flow_rate(weight_diff, time_diff, 3600, 2.2)",
  "",
  "# The best practice is to specify optional arguments via their keyword and never pass them as positional arguments.",
  "",
  "",
  ""]

/-- Verbatim lines of src/item20.py. -/
def item20_py : List String := [
  "# Item 20: Use None and Docstrings to Specify Dynamic Default Arguments",
  "from datetime import datetime",
  "import json",
  "from time import sleep",
  "",
  "# Suppose you want to write a function for logging messages where by default the messages are printed together",
  "# with the current time. An approach one might try is the following:",
  "def log(message, when=datetime.now()):",
  "    print(\x27%s: %s\x27 % (when, message))",
  "",
  "log(\x27Hi there!\x27)",
  "sleep(0.1)",
  "log(\x27Hi again!\x27)",
  "",
  "# 2015-10-23 12:13:09.019511: Hi there!",
  "# 2015-10-23 12:13:09.019511: Hi again!",
  "",
  "# Contrary to what one might expect, the timestamps are the same. This is because the datetime.now() call is executed",
  "# only once when the module loads, so all calls to the log function will have the same timestamp.",
  "# The convention for such cases is to give such an argument the default of None and document its actual behavior",
  "# in the docstring.",
  "def log(message, when=None):",
  "    \"\"\"Log a message with a timestamp.",
  "",
  "    Args:",
  "        message: Message to print.",
  "        when: datetime of when the message occured.",
  "            Defaults to the present time.",
  "    \"\"\"",
  "    when = datetime.now() if when is None else when",
  "    print(\x27%s: %s\x27 % (when, message))",
  "",
  "log(\x27Hi there!\x27)",
  "sleep(0.1)",
  "log(\x27Hi again!\x27)",
  "",
  "# 2015-10-23 13:39:34.573864: Hi there!",
  "# 2015-10-23 13:39:34.674155: Hi again!",
  "",
  "# When arguments are mutable, using None is especially important. Suppose you want to return an empty dictionary",
  "# when the input to the function was invalid:",
  "def decode(data, default=\x7b\x7d):",
  "    try:",
  "        return json.loads(data)",
  "    except ValueError:",
  "        return default",
  "",
  "# This will behave very surprisingly:",
  "foo = decode(\x27bad data\x27)",
  "foo[\x27stuff\x27] = 5",
  "bar = decode(\x27bad data\x27)",
  "bar[\x27meep\x27] = 1",
  "print(\x27Foo:\x27, foo)",
  "print(\x27Bar:\x27, bar)",
  "",
  "# Foo: \x7b\x27stuff\x27: 5, \x27meep\x27: 1\x7d",
  "# Bar: \x7b\x27stuff\x27: 5, \x27meep\x27: 1\x7d",
  "",
  "# In fact, both are the same dictionaries instead of two different ones with one key each. This can be fixed by",
  "# setting the default for default to None.",
  "def decode(data, default=None):",
  "    if default is None:",
  "        default = \x7b\x7d",
  "    try:",
  "        return json.loads(data)",
  "    except ValueError:",
  "        return default",
  "",
  "foo = decode(\x27bad data\x27)",
  "foo[\x27stuff\x27] = 5",
  "bar = decode(\x27bad data\x27)",
  "bar[\x27meep\x27] = 1",
  "print(\x27Foo:\x27, foo)",
  "print(\x27Bar:\x27, bar)",
  "",
  "# Foo: \x7b\x27stuff\x27: 5\x7d",
  "# Bar: \x7b\x27meep\x27: 1\x7d",
  "",
  "",
  ""]

/-- Verbatim lines of src/item21.py. -/
def item21_py : List String := [
  "# Item 21: Enforce Clarity with Keyword-Only Arguments",
  "",
  "# Suppose you want to write a safe division function for which the caller can specify how to handle ZeroDivisionError",
  "# and OverflowError exceptions:",
  "def safe_division(number, divisor, ignore_overflow, ignore_zero_division):",
  "    try:",
  "        return number / divisor",
  "    except OverflowError:",
  "        if ignore_overflow:",
  "            return 0",
  "        else:",
  "            raise",
  "    except ZeroDivisionError:",
  "        if ignore_zero_division:",
  "            return float(\x27inf\x27)",
  "        else:",
  "            raise",
  "",
  "result = safe_division(1, 10**500, True, False)  # Ignores overflow from division and returns zero",
  "print(result)   # 0.0",
  "",
  "result = safe_division(1, 0, False, True)   # Ignores errors from dividing by zero and returns infinity",
  "print(result)   # inf",
  "",
  "# The problem with this approach is that it is easy to confuse their positions. By using keyword arguments the",
  "# readability is improved:",
  "def safe_division_b(number, divisor, ignore_overflow=False, ignore_zero_division=False):",
  "    try:",
  "        return number / divisor",
  "    except OverflowError:",
  "        if ignore_overflow:",
  "            return 0",
  "        else:",
  "            raise",
  "    except ZeroDivisionError:",
  "        if ignore_zero_division:",
  "            return float(\x27inf\x27)",
  "        else:",
  "            raise",
  "",
  "safe_division_b(1, 10*500, ignore_overflow=True)",
  "safe_division_b(1, 0, ignore_zero_division=True)",
  "",
  "# The problem with this approach is that the arguments are now optional and that they can still be called in a",
  "# positional fashion.",
  "# In Python 3 it is possible to declare arguments keyword-only using the * operator",
  "# so that they cannot be passed as positional arguments:",
  "def safe_division_c(number, divisor, *,",
  "                    ignore_overflow=False,",
  "                    ignore_zero_division=False):",
  "    try:",
  "        return number / divisor",
  "    except OverflowError:",
  "        if ignore_overflow:",
  "            return 0",
  "        else:",
  "            raise",
  "    except ZeroDivisionError:",
  "        if ignore_zero_division:",
  "            return float(\x27inf\x27)",
  "        else:",
  "            raise",
  "",
  "# Now a call with all arguments positional won\x27t work:",
  "safe_division_c(1, 10*500, True, False)  #  TypeError: safe_division_c() takes 2 positional arguments but 4 were given",
  "",
  "# Keyword arguments and their default values work:",
  "safe_division_c(1, 0, ignore_zero_division=True)    # OK",
  "",
  "try:",
  "    safe_division_c(1, 0)",
  "except ZeroDivisionError:",
  "    pass    # Expected",
  "",
  "# In Python 2, keyword arguments can be enforced with the **kwargs argument which is similar to *args, but accepts",
  "# keyword arguments instead of position arguments. (No code example here because I am more interested in the",
  "# Python 3 way to do things.)",
  ""]

/-- Verbatim lines of src/item22.py. -/
def item22_py : List String := [
  "# Item 22: Prefer Helper Classes Over Bookkeeping with Dictionaries and Tuples",
  "import collections",
  "",
  "# The built-in dictionary type is well-suited for maintaining dynamic state. Suppose e.g. you want to store the grades",
  "# of students who are not known in advance. Using a dictionary encapsulated in a gradebook class this can be done",
  "# easily:",
  "class SimpleGradebook(object):",
  "    def __init__(self):",
  "        self._grades = \x7b\x7d",
  "",
  "    def add_student(self, name):",
  "        self._grades[name] = []",
  "",
  "    def report_grade(self, name, score):",
  "        self._grades[name].append(score)",
  "",
  "    def average_grade(self, name):",
  "        grades = self._grades[name]",
  "        return sum(grades) / len(grades)",
  "",
  "book = SimpleGradebook()",
  "book.add_student(\x27Isaac Newton\x27)",
  "book.report_grade(\x27Isaac Newton\x27, 80)",
  "book.report_grade(\x27Isaac Newton\x27, 50)",
  "book.report_grade(\x27Isaac Newton\x27, 90)",
  "print(book.average_grade(\x27Isaac Newton\x27))",
  "",
  "# 73.33333333333333",
  "",
  "# Suppose now you don\x27t want to store by name only, but also distinguish by subject. This can still fairly easily",
  "# be done by nesting dictionaries:",
  "class BySubjectGradebook(object):",
  "    def __init__(self):",
  "        self._grades = \x7b\x7d",
  "",
  "    def add_student(self, name):",
  "        self._grades[name] = \x7b\x7d",
  "",
  "    def report_grade(self, name, subject, score):",
  "        by_subject = self._grades[name]",
  "        grade_list = by_subject.setdefault(subject, [])",
  "        grade_list.append(score)",
  "",
  "    def average_grade(self, name):",
  "        by_subject = self._grades[name]",
  "        total, count = 0, 0",
  "        for grades in by_subject.values():",
  "            total += sum(grades)",
  "            count += len(grades)",
  "        return total / count",
  "",
  "book = BySubjectGradebook()",
  "book.add_student(\x27Albert Einstein\x27)",
  "book.report_grade(\x27Albert Einstein\x27, \x27Math\x27, 75)",
  "book.report_grade(\x27Albert Einstein\x27, \x27Math\x27, 65)",
  "book.report_grade(\x27Albert Einstein\x27, \x27Gym\x27, 90)",
  "book.report_grade(\x27Albert Einstein\x27, \x27Gym\x27, 95)",
  "print(book.average_grade(\x27Albert Einstein\x27))",
  "",
  "# 81.25",
  "",
  "# Now suppose you have one further requirement, you now also want to track the weight of each score towards the overall",
  "# grade. This could be achieved by storing (score, weight) tuples instead. We omit this code here, what is important is",
  "# that the more complex the data you want to keep track of is, the more complicated it gets to realize it using a simple",
  "# bookkeeping dictionary and further levels of nesting reduce readability.",
  "# When you realize that the task is too complex for the bookkeeping approach, it should be broken up into classes.",
  "# This increases encapsulation and provides a layer of abstraction between interfaces and implementation.",
  "",
  "# Refactoring to Classes",
  "# Refactoring can be done bottom-up. For a grade a class seems too heavyweight, but a namedtuple lets you define",
  "# tiny, immutable data classes, e.g:",
  "Grade = collections.namedtuple(\x27Grade\x27, (\x27score\x27, \x27weight\x27))",
  "",
  "# namedtuples can be constructed with both, positional and keyword arguments. There are two limitations to be beware",
  "# of: 1. Default values cannot be specified. This may work well for a small number of properties, but be problematic",
  "# for a larger number.",
  "#     2. The properties are still available via their numerical index. This can cause problems with externalized APIs,",
  "#        because any changes you introduce may break such external usages.",
  "",
  "# Using this newly defined Grade namedtuple a class for subjects can be created like this:",
  "class Subject(object):",
  "    def __init__(self):",
  "        self._grades = []",
  "",
  "    def report_grade(self, score, weight):",
  "        self._grades.append(Grade(score, weight))",
  "",
  "    def average_grade(self):",
  "        total, total_weight = 0, 0",
  "        for grade in self._grades:",
  "            total += grade.score * grade.weight",
  "            total_weight += grade.weight",
  "        return total / total_weight",
  "",
  "# Next, we need a class that represents a student:",
  "class Student(object):",
  "    def __init__(self):",
  "        self._subjects = \x7b\x7d",
  "",
  "    def subject(self, name):",
  "        if not name in self._subjects:",
  "            self._subjects[name] = Subject()",
  "        return self._subjects[name]",
  "",
  "    def average_grade(self):",
  "        total, count = 0, 0",
  "        for subject in self._subjects.values():",
  "            total += subject.average_grade()",
  "            count += 1",
  "        return total / count",
  "",
  "# Finally, we need a gradebook class:",
  "class Gradebook(object):",
  "    def __init__(self):",
  "        self._students = \x7b\x7d",
  "",
  "    def student(self, name):",
  "        if not name in self._students:",
  "            self._students[name] = Student()",
  "        return self._students[name]",
  "",
  "# The class-based implementation is almost twice as long as the previous, but it is much easier to read and so is the",
  "# usage example:",
  "book = Gradebook()",
  "albert = book.student(\x27Albert Einstein\x27)",
  "math = albert.subject(\x27Math\x27)",
  "math.report_grade(80, 0.10)",
  "math.report_grade(90, 0.15)",
  "math.report_grade(85, 0.10)",
  "print(albert.average_grade())",
  "",
  "# 85.71428571428572",
  "",
  "# The API is incompatible with that of the dictionary-based implementation, but if needed it is possible to write",
  "# backwards-compatible ones.",
  ""]

/-- Verbatim lines of src/item23.py. -/
def item23_py : List String := [
  "# Item 23: Accept Functions for Simple Interfaces Instead of Classes",
  "from collections import defaultdict",
  "",
  "# The behavior of many of Python\x27s built-in functions can be modified by passing them a function. This works because",
  "# functions are first-class objects so they can be passed around and referenced like other objects. For example,",
  "# the sort function takes a key argument to determine the sort order:",
  "",
  "names = [\x27Socrates\x27, \x27Archimedes\x27, \x27Plato\x27, \x27Aristotle\x27]",
  "names.sort(key=lambda x: len(x))",
  "print(names)",
  "",
  "# [\x27Plato\x27, \x27Socrates\x27, \x27Aristotle\x27, \x27Archimedes\x27]",
  "",
  "# These so-called hooks are called during the execution of the function. For example, the defaultdict class calls a",
  "# user-supplied function every time a missing key is accessed to ask it for the corresponding default value. If you",
  "# want to log such accesses and return 0, it can be done like this:",
  "def log_missing():",
  "    print(\x27Key added\x27)",
  "    return 0",
  "",
  "current = \x7b\x27green\x27: 12, \x27blue\x27: 3\x7d",
  "increments = [",
  "    (\x27red\x27, 5),",
  "    (\x27blue\x27, 17),",
  "    (\x27orange\x27, 9),",
  "]",
  "",
  "result = defaultdict(log_missing, current)",
  "print(\x27Before\x27, dict(result))",
  "for key, amount in increments:",
  "    result[key] += amount",
  "",
  "print(\x27After\x27, dict(result))",
  "",
  "# Before \x7b\x27blue\x27: 3, \x27green\x27: 12\x7d",
  "# Key added",
  "# Key added",
  "# After \x7b\x27blue\x27: 20, \x27red\x27: 5, \x27orange\x27: 9, \x27green\x27: 12\x7d",
  "",
  "# Supplying functions this way makes it easy to separate side effects from deterministic behavior and facilitates",
  "# replacing the function. Suppose you now want to just count the number of failed accesses. Using a stateful closure",
  "# (see item 15) this can be done like this:",
  "",
  "def increment_with_report(current, increments):",
  "    added_count = 0",
  "",
  "    def missing():",
  "        nonlocal added_count  # Stateful closure",
  "        added_count += 1",
  "        return 0",
  "",
  "    result = defaultdict(missing, current)",
  "    for key, amount in increments:",
  "        result[key] += amount",
  "    return result, added_count",
  "",
  "result, count = increment_with_report(current, increments)",
  "assert count == 2",
  "",
  "# However, the problem with this closure-based approach is that it is harder to read than the stateless function",
  "# example. A class that encapsulates the state makes the code easier to understand:",
  "class CountMissing(object):",
  "    def __init__(self):",
  "        self.added = 0",
  "",
  "    def missing(self):",
  "        self.added += 1",
  "        return 0",
  "",
  "# Thanks to functions being first-class objects, with this modification you can still reference the method directly",
  "# and pass it to defaultdict:",
  "counter = CountMissing()",
  "result = defaultdict(counter.missing, current)  # Method ref",
  "",
  "for key, amount in increments:",
  "    result[key] += amount",
  "",
  "assert counter.added == 2",
  "",
  "# Though this is better to read than the increment_with_report function, one problem remains: In isolation it is",
  "# unclear what the purpose of the class is. Without seeing it in context with the defaultdict, it is a mystery and",
  "# you don\x27t know who is reponsible for calling the missing() function. This can be solved by replacing missing() with",
  "# the __call__ special function that allows an object to be called like a function.",
  "class BetterCountMissing(object):",
  "    def __init__(self):",
  "        self.added = 0",
  "",
  "    def __call__(self):",
  "        self.added += 1",
  "        return 0",
  "",
  "counter = BetterCountMissing()",
  "assert callable(counter)",
  "",
  "result = defaultdict(counter, current)",
  "for key, amount in increments:",
  "    result[key] += amount",
  "",
  "assert counter.added == 2",
  "",
  "# This is clearer than the CountMissing class. By looking at the __call__ method the reader knows that the class",
  "# is supposed to be used as a function somewhere and provides hint that the class will act as a stateful closure.",
  "# For a function like defaultdict it makes no difference whether you pass it a normal function or a callable class.",
  "# To summarize, a function interface can be satisfied via different ways from an anonymous lambda function to a class",
  "# depending on the needs.",
  ""]

/-- Verbatim lines of src/item24.py. -/
def item24_py : List String := [
  "# Item 24: Use @classmethod Polymorphism to Construct Objects Generically",
  "import os",
  "from threading import Thread",
  "",
  "# Like other object-oriented languages, Python supports polymorphism, i.e. that different classes in a hierarchy",
  "# provide their own version of a method.",
  "# Suppose you want to write an implementation of the MapReduce pattern and need a class to represent input data:",
  "",
  "",
  "class InputData(object):",
  "    def read(self):",
  "        raise NotImplementedError",
  "",
  "class PathInputData(InputData):",
  "    def __init__(self, path):",
  "        super().__init__()",
  "        self.path = path",
  "",
  "    def read(self):",
  "        return open(self.path).read()",
  "",
  "# And similarly you want to write a worker class to be subclassed:",
  "class Worker(object):",
  "    def __init__(self, input_data):",
  "        self.input_data = input_data",
  "        self.result = None",
  "",
  "    def map(self):",
  "        raise NotImplementedError",
  "",
  "    def reduce(self, other):",
  "        raise NotImplementedError",
  "",
  "# A concrete class for counting the number of lines could look like this:",
  "class LineCountWorker(Worker):",
  "    def map(self):",
  "        data = self.input_data.read()",
  "        count = data.count(\x27\\n\x27)",
  "",
  "    def reduce(self, other):",
  "        self.result += other.result",
  "",
  "# What is still lacking is an orchestrating component that constructs and creates the different objects. A simple",
  "# approach would be to use a helper functions:",
  "def generate_inputs(data_dir):",
  "    for name in os.listdir(data_dir):",
  "        yield PathInputData(os.path.join(data_dir, name))",
  "",
  "def create_workers(input_list):",
  "    workers = []",
  "    for input_data in input_list:",
  "        workers.append(LineCountWorker(input_data))",
  "    return workers",
  "",
  "# Basic thread-level parallelism can be achieved using threads:",
  "def execute(workers):",
  "    threads = [Thread(target=w.map) for w in workers]",
  "    for thread in threads: thread.start()",
  "    for thread in threads: thread.join()",
  "",
  "    first, rest = workers[0], workers[1:]",
  "    for worker in rest:",
  "        first.reduce(worker)",
  "    return first.result",
  "",
  "# Finally, these functions can be connected using a further helper function:",
  "def mapreduce(data_dir):",
  "    inputs = generate_inputs(data_dir)",
  "    workers = create_workers(inputs)",
  "    return execute(workers)",
  "",
  "# This can now be used like this:",
  "from tempfile import TemporaryDirectory",
  "",
  "def write_test_files(tmpdir):",
  "    # ...",
  "    pass",
  "",
  "with TemporaryDirectory() as tmpdir:",
  "    write_test_files(tmpdir)",
  "    result = mapreduce(tmpdir)",
  "",
  "print(\x27There are\x27, result, \x27lines\x27)",
  "",
  "",
  "# The problem with this approach is that the mapreduce function is not generic at all. If you want to use another",
  "# InputData or Worker subclass, all helper functions need to be rewritten.",
  "# Thus, we need a generic way to create objects. Because Python only allows one constructor per class, overloading it",
  "# is not an option here and would require each subclass to implement one. The best way to solve this is to use",
  "# @classmethod (class-level) # polymorphism, which applies to the whole class instead of constructed objects. E.g:",
  "class GenericInputData(object):",
  "    def read(self):",
  "        raise NotImplementedError",
  "",
  "    @classmethod",
  "    def generate_inputs(cls, config):",
  "        raise NotImplementedError",
  "",
  "# Subclasses use the config argument to actually create the inputs:",
  "class PathInputData(GenericInputData):",
  "    def __init__(self, path):",
  "        super().__init__()",
  "        self.path = path",
  "",
  "    def read(self):",
  "        return open(self.path).read()",
  "",
  "    @classmethod",
  "    def generate_inputs(cls, config):",
  "        data_dir = config[\x27data_dir\x27]",
  "        for name in os.listdir(data_dir):",
  "            yield cls(os.path.join(data_dir, name))",
  "",
  "# Similarly for the worker class:",
  "class GenericWorker(object):",
  "    def __init__(self, input_data):",
  "        self.input_data = input_data",
  "        self.result = None",
  "",
  "    def map(self):",
  "        raise NotImplementedError",
  "",
  "    def reduce(self, other):",
  "        raise NotImplementedError",
  "",
  "    @classmethod",
  "    def create_workers(cls, input_class, config):",
  "        workers = []",
  "        for input_data in input_class.generate_inputs(config):  # Class polymorphism",
  "            workers.append(cls(input_data))",
  "        return workers",
  "",
  "# LineCountWorker can be adapted to this by simply changing the parent class:",
  "class LineCountWorker(GenericWorker):",
  "    def map(self):",
  "        data = self.input_data.read()",
  "        count = data.count(\x27\\n\x27)",
  "",
  "    def reduce(self, other):",
  "        self.result += other.result",
  "",
  "# Now we can rewrite the mapreduce function to be completely generic:",
  "def mapreduce(worker_class, input_class, config):",
  "    workers = worker_class.create_workers(input_class, config)",
  "    return execute(workers)",
  "",
  "# Now the usage example can be rewritten like this:",
  "with TemporaryDirectory() as tmpdir:",
  "    write_test_files(tmpdir)",
  "    config = \x7b\x27data_dir\x27: tmpdir\x7d",
  "    result = mapreduce(LineCountWorker, PathInputData, config)",
  "",
  ""]

/-- Verbatim lines of src/item25.py. -/
def item25_py : List String := [
  "# Item 25: Initialize Parent Classes with super",
  "",
  "# The old way to initialize parent class from a child class is a direct call to __init__:",
  "class MyBaseClass(object):",
  "    def __init__(self, value):",
  "        self.value = value",
  "",
  "def MyChildClass(MyBaseClass):",
  "    def __init__(self):",
  "        MyBaseClass.__init__(self, 5)",
  "",
  "# For simple hierarchies this approach is fine, but for more complex ones it can break.",
  "# First: Multiple Inheritance (which in general should be avoided, see item #26)",
  "# Here, the call order is important, e.g.:",
  "class TimesTwo(object):",
  "    def __init__(self):",
  "        self.value *= 2",
  "",
  "class PlusFive(object):",
  "    def __init__(self):",
  "        self.value += 5",
  "",
  "# First ordering variant:",
  "class OneWay(MyBaseClass, TimesTwo, PlusFive):",
  "    def __init__(self, value):",
  "        MyBaseClass.__init__(self, value)",
  "        TimesTwo.__init__(self)",
  "        PlusFive.__init__(self)",
  "",
  "foo = OneWay(5)",
  "print(\x27First ordering is (5 * 2) + 5 =\x27, foo.value)",
  "",
  "# First ordering is (5 * 2) + 5 = 15",
  "",
  "# Second ordering variant:",
  "class AnotherWay(MyBaseClass, PlusFive, TimesTwo):",
  "    def __init__(self, value):",
  "        MyBaseClass.__init__(self, value)",
  "        TimesTwo.__init__(self)",
  "        PlusFive.__init__(self)",
  "",
  "bar = AnotherWay(5)",
  "print(\x27Second ordering still is\x27, bar.value)",
  "",
  "# Second ordering still is 15",
  "",
  "# Despite the different order in the parent class list (but the same order in calls to __init__), the initialization",
  "# is in the same order as before and thus does not match the expected result.",
  "",
  "# Second: Diamond Inheritance (i.e. subclass with two superclasses that share a superclass)",
  "class TimesFive(MyBaseClass):",
  "    def __init__(self, value):",
  "        MyBaseClass.__init__(self, value)",
  "        self.value *= 5",
  "",
  "class PlusTwo(MyBaseClass):",
  "    def __init__(self, value):",
  "        MyBaseClass.__init__(self, value)",
  "        self.value += 2",
  "",
  "class ThisWay(TimesFive, PlusTwo):",
  "    def __init__(self, value):",
  "        TimesFive.__init__(self, value)",
  "        PlusTwo.__init__(self, value)",
  "",
  "foo = ThisWay(5)",
  "print(\x27Should be (5 * 5) + 2 = 27 but is\x27, foo.value)",
  "",
  "# Should be (5 * 5) + 2 = 27 but is 7",
  "# What happens here is that the constructor for MyBaseClass is called twice, (re)setting it to 5 each time.",
  "",
  "# To solve such problems, Python 2.2:",
  "# 1. Introduced the super() built-in function",
  "# 2. Introduced the method-resolution order (MRO) that standardizes the order of superclass initializations and",
  "# ensures that common superclasses constructors are executed only once in diamond hierarchies.",
  "",
  "# < Skip Python 2 Example >",
  "",
  "# Python 3 fixes problems with the Python 2 approach, making it less verbose and less error-prone (by removing the",
  "# need to specify the current\x27s class name in the call to the superclass).",
  "# Small usage example:",
  "class Explicit(MyBaseClass):",
  "    def __init__(self, value):",
  "        super(__class__, self).__init__(value * 2)",
  "",
  "class Implicit(MyBaseClass):",
  "    def __init__(self, value):",
  "        super().__init__(value * 2)",
  "",
  "assert Explicit(10).value == Implicit(10).value",
  "",
  "# To summarize: Parent classes should always be initialized using super() to make the code shorter. Python\x27s",
  "# method-resolution order ensures correct initialization in complex hierarchies. "]

/-- Verbatim lines of src/item26.py. -/
def item26_py : List String := [
  "# Item 26: Use Multiple Inheritance Only for Mix-in Utility Classes",
  "import json",
  "",
  "# Multiple Inheritance should be avoided in general. An exception to this are so-called mix-ins, i.e. classes that",
  "# only define a set of methods, but have no own instance attributes and no need for an __init__ constructor to be",
  "# called.",
  "# Suppose e.g. you want to write the functionality to convert an object to a dictionary representation that can be",
  "# serialized. Since this can be useful for different classes, it\x27s worth to make it generic:",
  "",
  "",
  "class ToDictMixin(object):",
  "    def to_dict(self):",
  "        return self._traverse_dict(self.__dict__)",
  "",
  "    def _traverse_dict(self, instance_dict):",
  "        output = \x7b\x7d",
  "        for key, value in instance_dict.items():",
  "            output[key] = self._traverse(key, value)",
  "        return output",
  "",
  "    def _traverse(self, key, value):",
  "        if isinstance(value, ToDictMixin):",
  "            return value.to_dict()",
  "        elif isinstance(value, dict):",
  "            return self._traverse(dict)",
  "        elif isinstance(value, list):",
  "            return [self._traverse(key, i) for i in value]",
  "        elif hasattr(value, \x27__dict__\x27):",
  "            return self._traverse_dict(value.__dict__)",
  "        else:",
  "            return value",
  "",
  "# This mix-in can easily be used e.g. in a binary tree class to create a dict representation of it:",
  "class BinaryTree(ToDictMixin):",
  "    def __init__(self, value, left=None, right=None):",
  "        self.value = value",
  "        self.left = left",
  "        self.right = right",
  "",
  "tree = BinaryTree(10,",
  "                  left = BinaryTree(7, right=BinaryTree(9)),",
  "                  right = BinaryTree(13, left=BinaryTree(11)))",
  "print(tree.to_dict())",
  "",
  "# \x7b\x27value\x27: 10,",
  "# \x27right\x27: \x7b\x27value\x27: 13, \x27right\x27: None, \x27left\x27: \x7b\x27value\x27: 11, \x27right\x27: None, \x27left\x27: None\x7d\x7d,",
  "# \x27left\x27: \x7b\x27value\x27: 7, \x27right\x27: \x7b\x27value\x27: 9, \x27right\x27: None, \x27left\x27: None\x7d, \x27left\x27: None\x7d\x7d",
  "",
  "# Of course, the behavior of the mix-in functions can be overriden in the child classes. Suppose e.g. you want to",
  "# subclass BinaryTree and want the subclass to hold a reference to its parent. This circular reference would cause",
  "# the to_dict method to enter an infinite loop:",
  "class BinaryTreeWithParent(BinaryTree):",
  "    def __init__(self, value, left=None, right=None, parent=None):",
  "        super().__init__(value, left=left, right=right)",
  "        self.parent = parent",
  "",
  "# The solution is to override to_dict to not traverse the parent:",
  "    def _traverse(self, key, value):",
  "        if (isinstance(value, BinaryTreeWithParent) and key == \x27parent\x27):",
  "            return value.value  # Prevent cycles",
  "        else:",
  "            return super()._traverse(key, value)",
  "",
  "root = BinaryTreeWithParent(10)",
  "root.left = BinaryTreeWithParent(7, parent=root)",
  "root.left.right =  BinaryTreeWithParent(9, parent=root.left)",
  "print(root.to_dict())",
  "",
  "# \x7b\x27left\x27: \x7b\x27left\x27: None, \x27value\x27: 7, \x27right\x27: \x7b\x27left\x27: None, \x27value\x27: 9, \x27right\x27: None, \x27parent\x27: 7\x7d, \x27parent\x27: 10\x7d,",
  "# \x27value\x27: 10,",
  "# \x27right\x27: None,",
  "# \x27parent\x27: None\x7d",
  "",
  "# Any class that has an attribute of type BinaryTreeWithParent now also works with ToDictMixin:",
  "class NamedSubTree(ToDictMixin):",
  "    def __init__(self, name, tree_with_parent):",
  "        self.name = name",
  "        self.tree_with_parent = tree_with_parent",
  "",
  "my_tree = NamedSubTree(\x27foobar\x27, root.left.right)",
  "print(my_tree.to_dict())",
  "",
  "# \x7b\x27name\x27: \x27foobar\x27, \x27tree_with_parent\x27: \x7b\x27parent\x27: 7, \x27right\x27: None, \x27value\x27: 9, \x27left\x27: None\x7d\x7d",
  "",
  "",
  "# One class can use multiple mix-ins. Suppose you also want to be able to serialize to a JSON representation, you could",
  "# write the following class:",
  "class JsonMixin(object):",
  "    @classmethod",
  "    def from_json(cls, data):",
  "        kwargs = json.loads(data)",
  "        return cls(**kwargs)",
  "",
  "    def to_json(self):",
  "        return json.dumps(self.to_dict())",
  "",
  "# Note that the class defines an instance method and a class method. The class method is responsible for creating an",
  "# object from given data while the instance method converts an object to a JSON representation. In this implementation",
  "# JsonMixin requires the child classes to have a to_dict method and __init__ constructor which takes keyword arguments.",
  "# Example using a class that represents part of a datacenter topology:",
  "class DatacenterRack(ToDictMixin, JsonMixin):",
  "    def __init__(self, switch=None, machines=None):",
  "        self.switch = Switch(**switch)",
  "        self.machines = [",
  "            Machine(**kwargs) for kwargs in machines]",
  "",
  "class Switch(ToDictMixin, JsonMixin):",
  "    def __init__(self, ports, speed):",
  "        self.ports = ports",
  "        self.speed = speed",
  "",
  "class Machine(ToDictMixin, JsonMixin):",
  "    def __init__(self, cores, ram, disk):",
  "        self.cores = cores",
  "        self.ram = ram",
  "        self.disk = disk",
  "",
  "serialized = \"\"\"\x7b",
  "    \"switch\": \x7b\"ports\":5, \"speed\": 1e9\x7d,",
  "    \"machines\": [",
  "        \x7b\"cores\": 8, \"ram\": 32e9, \"disk\": 5e12\x7d,",
  "        \x7b\"cores\": 4, \"ram\": 16e9, \"disk\": 1e12\x7d,",
  "        \x7b\"cores\": 2, \"ram\": 4e9, \"disk\": 500e9\x7d",
  "        ]",
  "    \x7d\"\"\"",
  "deserialized = DatacenterRack.from_json(serialized)",
  "roundtrip = deserialized.to_json()",
  "assert json.loads(serialized) == json.loads(roundtrip)",
  "",
  "",
  ""]

/-- Verbatim lines of src/item27.py. -/
def item27_py : List String := [
  "# Item 27: Prefer Public Attributes Over Private Ones",
  "",
  "# There are two types of attribute visibility in Python classes: public and private",
  "class MyObject(object):",
  "    def __init__(self):",
  "        self.public_field = 5",
  "        self.__private_field = 10",
  "",
  "    def get_private_field(self):",
  "        return self.__private_field",
  "",
  "foo = MyObject()",
  "assert foo.public_field == 5",
  "assert foo.get_private_field() == 10",
  "",
  "# print(foo.__private_field)  # AttributeError: \x27MyObject\x27 object has no attribute \x27__private_field\x27",
  "",
  "# Private variables cannot be accessed from outside of the class, but classmethods can access them:",
  "class MyOtherObject(object):",
  "    def __init__(self):",
  "        self.__private_field = 71",
  "",
  "    @classmethod",
  "    def get_private_field_of_instance(cls, instance):",
  "        return instance.__private_field",
  "",
  "bar = MyOtherObject()",
  "assert MyOtherObject.get_private_field_of_instance(bar) == 71",
  "",
  "# Subclasses can\x27t access a parent\x27s private fields:",
  "class MyParentObject(object):",
  "    def __init__(self):",
  "        self.__private_field = 71",
  "",
  "class MyChildObject(MyParentObject):",
  "    def get_private_field(self):",
  "        return self.__private_field",
  "",
  "baz = MyChildObject()",
  "# baz.get_private_field() # AttributeError: \x27MyChildObject\x27 object has no attribute \x27_MyChildObject__private_field\x27",
  "",
  "# However, Python does not strictly prevent access to private fields from the outside, because private variables",
  "# are internally only renamed to prevent them from being accessed. With this knowlege, it is easy to access them",
  "# anyway:",
  "assert baz._MyParentObject__private_field == 71 # No error",
  "",
  "print(baz.__dict__)",
  "# \x7b\x27_MyParentObject__private_field\x27: 71\x7d",
  "",
  "# The reasoning for this is Python\x27s motto that \"We are all consenting adults here\".",
  "# Besides, prefixing a variable with a single underscore is established as a convention to indicate a proteced variable.",
  "# However, many novice Pythoners use private fields to prevent subclasses from making modifications. E.g:",
  "class MyClass(object):",
  "    def __init__(self, value):",
  "        self.__value = value",
  "",
  "    def get_value(self):",
  "        return str(self.__value)",
  "",
  "foo = MyClass(5)",
  "assert foo.get_value() == \x275\x27",
  "",
  "# Suppose someone wants to instead return the value as an integer. The user is then forced to access the private",
  "# variable via its \"hidden\" name:",
  "class MyIntegerSubclass(MyClass):",
  "    def get_value(self):",
  "        return int(self._MyClass__value)",
  "",
  "foo = MyIntegerSubclass(5)",
  "assert foo.get_value() == 5",
  "",
  "# But this approach is going to break if the class hierarchy changes. Suppose the MyClass class itself has a superclass",
  "# which now holds the private variable:",
  "class MyBaseClass(object):",
  "    def __init__(self, value):",
  "        self.__value = value",
  "",
  "class MyClass(MyBaseClass):",
  "    def get_value(self):",
  "        return str(self.__value)",
  "",
  "class MyIntegerSubclass(MyClass):",
  "    # ...",
  "    def get_value(self):",
  "        return int(self._MyClass__value)",
  "",
  "foo = MyIntegerSubclass(5)",
  "# foo.get_value() #   AttributeError: \x27MyIntegerSubclass\x27 object has no attribute \x27_MyClass__value\x27",
  "",
  "",
  "# Instead, it is better to use protected attributes and document them which ones can be subclassed and which ones",
  "# should be left alone. E.g:",
  "class MyClass(object):",
  "    def __init__(self, value):",
  "        # This stores the user-supplied value for the object.",
  "        # It should be coercible to a string. Once assigned for",
  "        # the object it should be treated as immutable.",
  "        self._value = value",
  "",
  "# Private attributes should only be considered when there is reason to be worried about naming conflicts with",
  "# subclasses. E.g:",
  "class ApiClass(object):",
  "    def __init__(self):",
  "        self._value = 5",
  "",
  "    def get(self):",
  "        return self._value",
  "",
  "class Child(ApiClass):",
  "    def __init__(self):",
  "        super().__init__()",
  "        self._value = \x27hello\x27  # Conflicts",
  "",
  "a = Child()",
  "print(a.get(), \x27and\x27, a._value, \x27should be different\x27)",
  "",
  "# hello and hello should be different",
  "",
  "# This can especially happen if you use an attribute name that is very common like \"value\". By making it private, the",
  "# conflict can be resolved:",
  "class ApiClass(object):",
  "    def __init__(self):",
  "        self.__value = 5",
  "",
  "    def get(self):",
  "        return self.__value",
  "",
  "class Child(ApiClass):",
  "    def __init__(self):",
  "        super().__init__()",
  "        self._value = \x27hello\x27  # OK!",
  "",
  "a = Child()",
  "print(a.get(), \x27and\x27, a._value, \x27are different\x27)",
  "",
  "# 5 and hello are different",
  "",
  "# To summarize, private variables should only be used to avoid naming conflicts and their privateness is not",
  "# enforced anyway. Protected fields should be documented to guide users what they should and should not do when",
  "# subclassing."]

/-- Verbatim lines of src/item29.py. -/
def item29_py : List String := [
  "# Item 29: Use Plain Attributes Instead of Get and Set Methods",
  "",
  "# Python beginners may be tempted to implement getters and setters as known from other languages, e.g:",
  "class OldResistor(object):",
  "    def __init__(self, ohms):",
  "        self._ohms = ohms",
  "",
  "    def get_ohms(self):",
  "        return self._ohms",
  "",
  "    def set_ohms(self, ohms):",
  "        self._ohms = ohms",
  "",
  "# These can be used as usually:",
  "r0 = OldResistor(50e3)",
  "print(\x27Before: %5r\x27 % r0.get_ohms())",
  "r0.set_ohms(10e3)",
  "print(\x27After:  %5r\x27 % r0.get_ohms())",
  "",
  "# Before: 50000.0",
  "# After:  10000.0",
  "",
  "# While this encapsulation helps in achieving the well-known goals of validation etc., this way of implementing",
  "# attribut access is not Pythonic. In the beginning, you should design your class simply with public attributes:",
  "class Resistor(object):",
  "    def __init__(self, ohms):",
  "        self.ohms = ohms",
  "        self.voltage = 0",
  "        self.current = 0",
  "",
  "r1 = Resistor(50e3)",
  "r1.ohms = 10e3",
  "r1.ohms += 5e3",
  "",
  "# If you later decide that you need custom behavior when an attribute is get/set, use the @property decorator and",
  "# implement both methods:",
  "class VoltageResistance(Resistor):",
  "    def __init__(self, ohms):",
  "        super().__init__(ohms)",
  "        self._voltage = 0",
  "",
  "    @property",
  "    def voltage(self):",
  "        return self._voltage",
  "",
  "    @voltage.setter",
  "    def voltage(self, voltage):",
  "        self._voltage = voltage",
  "        self.current = self._voltage / self.ohms",
  "",
  "r2 = VoltageResistance(1e3)",
  "print(\x27Before: %5r amps\x27 % r2.current)",
  "r2.voltage = 10",
  "print(\x27After:  %5r amps\x27 % r2.current)",
  "",
  "# Before:     0 amps",
  "# After:   0.01 amps",
  "",
  "# This can also be used not only to update other attributes\x27 values, but to perform validity checks on the attribute",
  "# itself:",
  "class BoundedResistance(Resistor):",
  "    def __init__(self, ohms):",
  "        super().__init__(ohms)",
  "",
  "    @property",
  "    def ohms(self):",
  "        return self._ohms",
  "",
  "    @ohms.setter",
  "    def ohms(self, ohms):",
  "        if ohms <= 0:",
  "            raise ValueError(\x27%f ohms must be > 0\x27 % ohms)",
  "        self._ohms = ohms",
  "",
  "r3 = BoundedResistance(1e3)",
  "# r3.ohms = 0  # ValueError: 0.000000 ohms must be > 0",
  "",
  "# foo = BoundedResistance(-5)  # ValueError: 0.000000 ohms must be > 0",
  "",
  "# Using @property attributes from parent classes can even be marked immutable:",
  "class FixedResistance(Resistor):",
  "    def __init__(self, ohms):",
  "        super().__init__(ohms)",
  "",
  "    @property",
  "    def ohms(self):",
  "        return self._ohms",
  "",
  "    @ohms.setter",
  "    def ohms(self, ohms):",
  "        if hasattr(self, \x27_ohms\x27):",
  "            raise AttributeError(\"Can\x27t set attribute\")",
  "        self._ohms = ohms",
  "",
  "r4 = FixedResistance(1e3)",
  "# r4.ohms = 2e3  # AttributeError: Can\x27t set attribute",
  "",
  "# When using @property, you should not set other attributes in getter methods as this leads to bizarre behavior:",
  "class MysteriousResistor(Resistor):",
  "    @property",
  "    def ohms(self):",
  "        self.voltage = self._ohms * self.current",
  "        return self._ohms",
  "",
  "    @ohms.setter",
  "    def ohms(self, ohms):",
  "        if ohms <= 0:",
  "            raise ValueError(\x27%f ohms must be > 0\x27 % ohms)",
  "        self._ohms = ohms",
  "",
  "r7 = MysteriousResistor(10)",
  "r7.current = 0.01",
  "print(\x27Before: %5r\x27 % r7.voltage)",
  "r7.ohms",
  "print(\x27After:  %5r\x27 % r7.voltage)",
  "",
  "# Before:     0",
  "# After:    0.1",
  "",
  "# @property methods should thus have no side effects and not perform complex operations, because users will expect them",
  "# to be fast just like normal attribute access."]

/-- Verbatim lines of src/item30.py. -/
def item30_py : List String := [
  "# Item 30: Consider @property Instead of Refactoring Attributes",
  "",
  "# Suppose you have a class to implement a bucket quota that keeps track of how much quota remains:",
  "from datetime import timedelta, datetime",
  "",
  "",
  "class Bucket(object):",
  "    def __init__(self, period):",
  "        self.period_delta = timedelta(seconds=period)",
  "        self.reset_time = datetime.now()",
  "        self.quota = 0",
  "",
  "    def __repr__(self):",
  "        return \x27Bucket(quota=%d)\x27 % self.quota",
  "",
  "# A filled bucket\x27s quota does not carry from one period to the next:",
  "def fill(bucket, amount):",
  "    now = datetime.now()",
  "    if now - bucket.reset_time > bucket.period_delta:",
  "        bucket.quota = 0",
  "        bucket.reset_time = 0",
  "    bucket.quota += amount",
  "",
  "# Deduct ensures that the requested amount is available:",
  "def deduct(bucket, amount):",
  "    now = datetime.now()",
  "    if now - bucket.reset_time > bucket.period_delta:",
  "        return False",
  "    if bucket.quota - amount < 0:",
  "        return False",
  "    bucket.quota -= amount",
  "    return True",
  "",
  "bucket = Bucket(60)",
  "fill(bucket, 100)",
  "print(bucket)",
  "",
  "# Bucket(quota=100)",
  "",
  "if deduct(bucket, 99):",
  "    print(\x27Had 99 quota\x27)",
  "else:",
  "    print(\x27Not enough for 99 quota\x27)",
  "print(bucket)",
  "",
  "# Had 99 quota",
  "# Bucket(quota=1)",
  "",
  "if deduct(bucket, 3):",
  "    print(\x27Had 3 quota\x27)",
  "else:",
  "    print(\x27Not enough for 3 quota\x27)",
  "print(bucket)",
  "",
  "# Not enough for 3 quota",
  "# Bucket(quota=1)",
  "",
  "# The problem with this bucket implementation is that it does not tell which level it started with and how much",
  "# was consumed. We can fix this by adding two attributes and using @property:",
  "class Bucket(object):",
  "    def __init__(self, period):",
  "        self.period_delta = timedelta(seconds=period)",
  "        self.reset_time = datetime.now()",
  "        self.max_quota = 0",
  "        self.quota_consumed = 0",
  "",
  "    def __repr__(self):",
  "        return(\x27Bucket(max_quota=%d, quota_consumed=%d\x27 %",
  "               (self.max_quota, self.quota_consumed))",
  "",
  "    @property",
  "    def quota(self):",
  "        return self.max_quota - self.quota_consumed",
  "",
  "    @quota.setter",
  "    def quota(self, amount):",
  "        delta = self.max_quota - amount",
  "        if amount == 0:",
  "            # Quota being reset for a new period",
  "            self.quota_consumed = 0",
  "            self.max_quota = 0",
  "        elif delta < 0:",
  "            # Quota being filled for the new period",
  "            assert self.quota_consumed == 0",
  "            self.max_quota = amount",
  "        else:",
  "            # Quota being consumed during the period",
  "            assert self.max_quota  >= self.quota_consumed",
  "            self.quota_consumed += delta",
  "",
  "bucket = Bucket(60)",
  "print(\x27Initial\x27, bucket)",
  "fill(bucket, 100)",
  "print(\x27Filled\x27, bucket)",
  "",
  "if deduct(bucket, 99):",
  "    print(\x27Had 99 quota\x27)",
  "else:",
  "    print(\x27Not enough for 99 quota\x27)",
  "print(\x27Now\x27, bucket)",
  "",
  "if deduct(bucket, 3):",
  "    print(\x27Had 3 quota\x27)",
  "else:",
  "    print(\x27Not enough for 3 quota\x27)",
  "print(\x27Still\x27, bucket)",
  "",
  "# Initial Bucket(max_quota=0, quota_consumed=0",
  "# Filled Bucket(max_quota=100, quota_consumed=0",
  "# Had 99 quota",
  "# Now Bucket(max_quota=100, quota_consumed=99",
  "# Not enough for 3 quota",
  "# Still Bucket(max_quota=100, quota_consumed=99",
  "",
  "# We did not have to change the Bucket-using code, because the changes were transparent to the user.",
  "# Ideally, fill and deduct should have been instance methods (see item #22). @property helps in incrementally",
  "# improving your data model, but if it is used too heavily, it may be an indicator for refactoring classes.",
  "",
  "",
  "",
  ""]

/-- Every file of src/, with its name. -/
def srcFiles : List (String × List String) := [
  ("item1.py", item1_py),
  ("item2.py", item2_py),
  ("item3.py", item3_py),
  ("item4.py", item4_py),
  ("item5.py", item5_py),
  ("item6.py", item6_py),
  ("item7.py", item7_py),
  ("item8.py", item8_py),
  ("item9.py", item9_py),
  ("item10.py", item10_py),
  ("item11.py", item11_py),
  ("item12.py", item12_py),
  ("item13.py", item13_py),
  ("item14.py", item14_py),
  ("item15.py", item15_py),
  ("item16.py", item16_py),
  ("item17.py", item17_py),
  ("item18.py", item18_py),
  ("item19.py", item19_py),
  ("item20.py", item20_py),
  ("item21.py", item21_py),
  ("item22.py", item22_py),
  ("item23.py", item23_py),
  ("item24.py", item24_py),
  ("item25.py", item25_py),
  ("item26.py", item26_py),
  ("item27.py", item27_py),
  ("item29.py", item29_py),
  ("item30.py", item30_py)]

end SourceText
namespace SourceText

/-- Is the pattern a prefix of the text? -/
def seqAt : List Char → List Char → Bool
  | [], _ => true
  | _ :: _, [] => false
  | p :: ps, c :: cs => p == c && seqAt ps cs

/-- Does the pattern occur as a contiguous substring of the text? -/
def containsSeq (pat : List Char) : List Char → Bool
  | [] => pat.isEmpty
  | c :: cs => seqAt pat (c :: cs) || containsSeq pat cs

/-- Substring test on strings. -/
def strHasSub (s pat : String) : Bool := containsSeq pat.data s.data

/-- The word whose presence marks a Python import statement (both the
`import m` and the `from m import n` forms contain it). -/
def importWord : String := "import "

/-- Python's dynamic-import builtin. -/
def dunderImportWord : String := "__import__"

/-- Name prefix shared by every snippet file of src/. -/
def itemWord : String := "item"

/-- Exception-handling keyword: a file without the substring `try` contains
no `try:`/`except:` statement and hence no exception handler at all. -/
def tryWord : String := "try"

/-- Words naming the synchronization primitives of Python's `threading`
module. -/
def lockWord : String := "Lock"

def semaphoreWord : String := "Semaphore"

def conditionWord : String := "Condition"

def acquireWord : String := "acquire"

def threadingWord : String := "threading"

/-- The only line of item24.py mentioning the `threading` module: it imports
`Thread` and nothing else. -/
def threadImportLine : String := "from threading import Thread"

/-- Words that would mark output, file writes or global-state access. -/
def openWord : String := "open"

def printWord : String := "print"

def writeWord : String := "write"

def globalWord : String := "global"

/-- Every line of src/ containing `import ` is one of these import
statements; all of them name only standard-library modules (sys, json,
itertools, datetime, time, collections, os, threading, tempfile,
urllib.parse), none a sibling snippet file. -/
def allowedImports : List String := [
  "import sys",
  "import json",
  "from itertools import islice",
  "from datetime import datetime",
  "from time import sleep",
  "import collections",
  "from collections import defaultdict",
  "import os",
  "from threading import Thread",
  "from tempfile import TemporaryDirectory",
  "from datetime import timedelta, datetime",
  "from urllib.parse import parse_qs"]

/-- Has the line none of the words marking output, file writes, global-state
access or imports? -/
def hasNoEffectWord (l : String) : Bool :=
  !(strHasSub l openWord) && !(strHasSub l printWord) &&
    !(strHasSub l writeWord) && !(strHasSub l globalWord) &&
    !(strHasSub l importWord)

/-- Lines 17-32 of item30.py: the bodies of `fill` and `deduct`. -/
def fillDeductLines : List String := (item30_py.drop 16).take 16

/-- Lines 71-89 of item30.py: the `quota` property getter and setter. -/
def quotaPropertyLines : List String := (item30_py.drop 70).take 19

end SourceText

namespace Item26

/-- The parse of the `serialized` JSON text of item26.py lines 118-125: a
switch with 5 ports at 1e9 speed and three machines. -/
def serializedExample : Json :=
  .obj (.cons switchKey
    (.obj (.cons portsKey (.num 5) (.cons speedKey (.num 1000000000) .nil)))
    (.cons machinesKey
      (.arr (.cons (.obj (.cons coresKey (.num 8)
          (.cons ramKey (.num 32000000000)
            (.cons diskKey (.num 5000000000000) .nil))))
        (.cons (.obj (.cons coresKey (.num 4)
          (.cons ramKey (.num 16000000000)
            (.cons diskKey (.num 1000000000000) .nil))))
          (.cons (.obj (.cons coresKey (.num 2)
            (.cons ramKey (.num 4000000000)
              (.cons diskKey (.num 500000000000) .nil))))
            .nil))))
      .nil))

end Item26
namespace Item30

lemma run0_append (b : Bucket0) (l1 l2 : List Op) :
    run0 b (l1 ++ l2) = run0 (run0 b l1) l2 := by
  induction l1 generalizing b with
  | nil => rfl
  | cons op l ih => simp [run0, ih]

lemma trace0_append (b : Bucket0) (l1 l2 : List Op) :
    trace0 b (l1 ++ l2) = trace0 b l1 ++ trace0 (run0 b l1) l2 := by
  induction l1 generalizing b with
  | nil => rfl
  | cons op l ih => simp [trace0, run0, ih]

lemma trace1_append_some (b b2 : Bucket1) (l1 l2 : List Op)
    (u v : List (Int × Option Bool))
    (h1 : trace1 b l1 = some u) (h2 : run1 b l1 = some b2)
    (h3 : trace1 b2 l2 = some v) :
    trace1 b (l1 ++ l2) = some (u ++ v) := by
  induction l1 generalizing b u with
  | nil =>
    simp only [trace1, run1] at h1 h2
    injection h1 with h1'
    injection h2 with h2'
    subst h1'; subst h2'
    simpa using h3
  | cons op l ih =>
    cases hs : step1 b op with
    | none => simp [trace1, hs] at h1
    | some s =>
      simp only [trace1, run1, hs, List.cons_append, List.append_eq] at h1 h2 ⊢
      obtain ⟨u', hu', rfl⟩ := Option.map_eq_some'.mp h1
      rw [ih s.1 u' hu' h2]
      simp

lemma bucket_fill_sync (t0 period t a M : Int) (hM : 0 ≤ M) (ha : 0 ≤ a)
    (ht : t - t0 ≤ period) :
    fill0 t ⟨period, t0, M⟩ a = ⟨period, t0, M + a⟩ ∧
    fill1 t ⟨period, t0, M, 0⟩ a = some ⟨period, t0, M + a, 0⟩ := by
  have hexp : ¬ (t - t0 > period) := by omega
  constructor
  · simp [fill0, hexp]
  · simp only [fill1, hexp, if_false, Option.some_bind, Bucket1.quota, setQuota]
    split_ifs with h1 h2 h3 <;> simp_all <;> omega

lemma bucket_fill_phase (t0 period : Int) (l : List (Int × Int)) (M : Int)
    (hM : 0 ≤ M)
    (hl : ∀ p ∈ l, p.1 - t0 ≤ period ∧ 0 ≤ p.2) :
    ∃ M2 : Int, 0 ≤ M2 ∧
      run0 ⟨period, t0, M⟩ (l.map (fun q => Op.fill q.1 q.2)) = ⟨period, t0, M2⟩ ∧
      run1 ⟨period, t0, M, 0⟩ (l.map (fun q => Op.fill q.1 q.2))
        = some ⟨period, t0, M2, 0⟩ ∧
      trace1 ⟨period, t0, M, 0⟩ (l.map (fun q => Op.fill q.1 q.2))
        = some (trace0 ⟨period, t0, M⟩ (l.map (fun q => Op.fill q.1 q.2))) := by
  induction l generalizing M with
  | nil => exact ⟨M, hM, rfl, rfl, rfl⟩
  | cons p l ih =>
    obtain ⟨hp, hl⟩ := List.forall_mem_cons.mp hl
    obtain ⟨h0, h1⟩ := bucket_fill_sync t0 period p.1 p.2 M hM hp.2 hp.1
    obtain ⟨M2, hM2, hr0, hr1, htr⟩ := ih (M + p.2) (by omega)
      (fun q hq => hl q hq)
    refine ⟨M2, hM2, ?_, ?_, ?_⟩
    · simp [run0, step0, h0, hr0]
    · simp [run1, step1, h1, hr1]
    · simp [trace1, trace0, step1, step0, h0, h1, htr, Bucket1.quota]

lemma bucket_first_deduct (t0 period t d M : Int) (hM : 0 ≤ M)
    (ht : t - t0 ≤ period) (hd : 0 ≤ d) :
    ∃ (q : Int) (r : Bool) (M2 C : Int),
      deduct0 t ⟨period, t0, M⟩ d = (⟨period, t0, q⟩, r) ∧
      deduct1 t ⟨period, t0, M, 0⟩ d = some (⟨period, t0, M2, C⟩, r) ∧
      M2 - C = q := by
  have hexp : ¬ (t - t0 > period) := by omega
  by_cases h1 : M - d < 0
  · refine ⟨M, false, M, 0, ?_, ?_, by omega⟩
    · simp [deduct0, hexp, h1]
    · simp [deduct1, Bucket1.quota, hexp, h1]
  · by_cases h2 : M - d = 0
    · refine ⟨M - d, true, 0, 0, ?_, ?_, by omega⟩
      · simp [deduct0, hexp, h1]
      · simp [deduct1, Bucket1.quota, hexp, h1, setQuota, h2]
    · refine ⟨M - d, true, M, d, ?_, ?_, by omega⟩
      · simp [deduct0, hexp, h1]
      · have h4 : ¬ (d < 0) := by omega
        simp [deduct1, Bucket1.quota, hexp, h1, setQuota, h2, h4, hM]

lemma bucket_failing_deducts (t0 period : Int) (l : List (Int × Int))
    (b0 : Bucket0) (b1 : Bucket1)
    (e0 : b0.period_delta = period) (e1 : b0.reset_time = t0)
    (e2 : b1.period_delta = period) (e3 : b1.reset_time = t0)
    (eq : b1.quota = b0.quota)
    (hl : ∀ p ∈ l, p.1 - t0 ≤ period ∧ b0.quota < p.2) :
    trace1 b1 (l.map (fun q => Op.deduct q.1 q.2))
      = some (trace0 b0 (l.map (fun q => Op.deduct q.1 q.2))) := by
  induction l with
  | nil => rfl
  | cons p l ih =>
    obtain ⟨hp, hl⟩ := List.forall_mem_cons.mp hl
    have hexp : ¬ (p.1 - b0.reset_time > b0.period_delta) := by
      rw [e0, e1]; omega
    have hexp1 : ¬ (p.1 - b1.reset_time > b1.period_delta) := by
      rw [e2, e3]; omega
    have hq : b0.quota - p.2 < 0 := by omega
    have hq1 : b1.quota - p.2 < 0 := by omega
    have s0 : deduct0 p.1 b0 p.2 = (b0, false) := by
      simp [deduct0, hexp, hq]
    have s1 : deduct1 p.1 b1 p.2 = some (b1, false) := by
      simp [deduct1, hexp1, hq1]
    simp [trace1, trace0, step1, step0, s0, s1, ih hl, eq]

end Item30
namespace Item30

/-- C1 counterexample.  The refactoring is not transparent: starting from
fresh buckets with period 60 and running `fill 3; deduct 1; deduct 1`, all at
the construction time (well within one quota period), the plain bucket
reports quota 3, 2, 1 while the property-based bucket reports quota 3, 2, 0
(its setter adds `delta = max_quota - amount` to `quota_consumed`, which
over-consumes once `quota_consumed` is nonzero).  Both deducts return `True`
for both buckets, but the reported quota differs after the third call. -/
theorem item30_refactoring_not_transparent :
    (∀ op ∈ cexOps, op.time - 0 ≤ 60) ∧
    trace1 (Bucket1.fresh 0 60) cexOps
      ≠ some (trace0 (Bucket0.fresh 0 60) cexOps) := by
  constructor
  · decide
  · decide

/-- C1 (amended).  Within a single quota period, the refactoring is
transparent for every call sequence of the shape the file itself exercises:
any number of `fill` calls with nonnegative amounts followed by `deduct`
calls of which every one after the first requests more than the quota
remaining after the first deduct (so only the first deduct can succeed).
For every such sequence the two buckets report the same quota value after
every call and every deduct returns the same boolean.  (The counterexample
shows this fails as soon as a second deduct succeeds.) -/
theorem item30_refactoring_transparent_amended
    (t0 period : Int)
    (fillOps : List (Int × Int))
    (hfill : ∀ p ∈ fillOps, p.1 - t0 ≤ period ∧ 0 ≤ p.2)
    (t1 d0 : Int) (ht1 : t1 - t0 ≤ period) (hd0 : 0 ≤ d0)
    (deductOps : List (Int × Int))
    (hrest : ∀ p ∈ deductOps, p.1 - t0 ≤ period ∧
      (run0 (Bucket0.fresh t0 period)
        (fillOps.map (fun q => Op.fill q.1 q.2) ++ [Op.deduct t1 d0])).quota
        < p.2) :
    trace1 (Bucket1.fresh t0 period)
        (fillOps.map (fun q => Op.fill q.1 q.2) ++ Op.deduct t1 d0 ::
          deductOps.map (fun q => Op.deduct q.1 q.2))
      = some (trace0 (Bucket0.fresh t0 period)
        (fillOps.map (fun q => Op.fill q.1 q.2) ++ Op.deduct t1 d0 ::
          deductOps.map (fun q => Op.deduct q.1 q.2))) := by
  have hb0 : Bucket0.fresh t0 period = ⟨period, t0, 0⟩ := rfl
  have hb1 : Bucket1.fresh t0 period = ⟨period, t0, 0, 0⟩ := rfl
  obtain ⟨M2, hM2, hr0, hr1, htr⟩ :=
    bucket_fill_phase t0 period fillOps 0 le_rfl hfill
  obtain ⟨q, r, M2', C, hd0eq, hd1eq, hqeq⟩ :=
    bucket_first_deduct t0 period t1 d0 M2 hM2 ht1 hd0
  have tr0mid : trace0 ⟨period, t0, M2⟩ [Op.deduct t1 d0] = [(q, some r)] := by
    simp [trace0, step0, hd0eq]
  have tr1mid : trace1 ⟨period, t0, M2, 0⟩ [Op.deduct t1 d0]
      = some [(q, some r)] := by
    simp [trace1, step1, hd1eq, Bucket1.quota, hqeq]
  have run0mid : run0 ⟨period, t0, M2⟩ [Op.deduct t1 d0] = ⟨period, t0, q⟩ := by
    simp [run0, step0, hd0eq]
  have run1mid : run1 ⟨period, t0, M2, 0⟩ [Op.deduct t1 d0]
      = some ⟨period, t0, M2', C⟩ := by
    simp [run1, step1, hd1eq]
  have q1eq : (run0 (Bucket0.fresh t0 period)
      (fillOps.map (fun s => Op.fill s.1 s.2) ++ [Op.deduct t1 d0])).quota
      = q := by
    rw [hb0, run0_append, hr0, run0mid]
  have hrest2 : ∀ p ∈ deductOps, p.1 - t0 ≤ period ∧
      (⟨period, t0, q⟩ : Bucket0).quota < p.2 := by
    intro p hp
    obtain ⟨h1, h2⟩ := hrest p hp
    rw [q1eq] at h2
    exact ⟨h1, h2⟩
  have trRest := bucket_failing_deducts t0 period deductOps
    ⟨period, t0, q⟩ ⟨period, t0, M2', C⟩ rfl rfl rfl rfl
    (by simp [Bucket1.quota, hqeq]) hrest2
  have assemble1 : trace1 ⟨period, t0, M2, 0⟩
      ([Op.deduct t1 d0] ++ deductOps.map (fun s => Op.deduct s.1 s.2))
      = some ([(q, some r)]
          ++ trace0 ⟨period, t0, q⟩ (deductOps.map (fun s => Op.deduct s.1 s.2))) :=
    trace1_append_some _ _ _ _ _ _ tr1mid run1mid trRest
  have whole := trace1_append_some _ _
    (fillOps.map (fun s => Op.fill s.1 s.2))
    ([Op.deduct t1 d0] ++ deductOps.map (fun s => Op.deduct s.1 s.2))
    _ _ htr hr1 assemble1
  have hsingle : Op.deduct t1 d0 :: deductOps.map (fun s => Op.deduct s.1 s.2)
      = [Op.deduct t1 d0] ++ deductOps.map (fun s => Op.deduct s.1 s.2) := rfl
  rw [hb1, hb0, hsingle, trace0_append, hr0, trace0_append, run0mid, tr0mid]
  exact whole

/-- C1 witness: the amended transparency theorem applied to the sequence the
file itself runs (fill 100; deduct 99; deduct 3, period 60, all calls at the
construction time). -/
theorem item30_refactoring_transparent_amended_witness :
    trace1 (Bucket1.fresh 0 60)
        (([((0 : Int), (100 : Int))]).map (fun q => Op.fill q.1 q.2)
          ++ Op.deduct 0 99 ::
            ([((0 : Int), (3 : Int))]).map (fun q => Op.deduct q.1 q.2))
      = some (trace0 (Bucket0.fresh 0 60)
        (([((0 : Int), (100 : Int))]).map (fun q => Op.fill q.1 q.2)
          ++ Op.deduct 0 99 ::
            ([((0 : Int), (3 : Int))]).map (fun q => Op.deduct q.1 q.2))) :=
  item30_refactoring_transparent_amended 0 60 [(0, 100)] (by decide)
    0 99 (by decide) (by decide) [(0, 3)] (by decide)

/-- C4.  The property-based `Bucket` maintains no invariant relating its
fields: neither `quota_consumed ≤ max_quota` nor `quota ≥ 0` is preserved by
every sequence of `fill` and `deduct` calls on a fresh bucket within one
period — the sequence `fill 3; deduct 1; deduct 1; fill 1` (period 60, all
calls at construction time, all amounts positive, no assertion failing)
reaches `max_quota = 3, quota_consumed = 5`, where `quota_consumed >
max_quota` and the reported quota is `-2 < 0`. -/
theorem item30_bucket_no_invariant :
    (¬ ∀ ops : List Op, (∀ op ∈ ops, op.time - 0 ≤ 60 ∧ 0 < op.amount) →
        ∀ b, run1 (Bucket1.fresh 0 60) ops = some b →
          b.quota_consumed ≤ b.max_quota) ∧
    (¬ ∀ ops : List Op, (∀ op ∈ ops, op.time - 0 ≤ 60 ∧ 0 < op.amount) →
        ∀ b, run1 (Bucket1.fresh 0 60) ops = some b → 0 ≤ b.quota) := by
  constructor
  · intro h
    exact absurd (h invOps (by decide) ⟨60, 0, 3, 5⟩ (by decide)) (by decide)
  · intro h
    exact absurd (h invOps (by decide) ⟨60, 0, 3, 5⟩ (by decide)) (by decide)

end Item30
namespace Item26

lemma lenObj_canonObj : (fs : JsonObj) → lenObj (canonObj fs) = lenObj fs
  | .nil => rfl
  | .cons _ _ rest => by simp [canonObj, lenObj, lenObj_canonObj rest]

lemma getKey_canonObj : (fs : JsonObj) → (key : String) →
    getKey (canonObj fs) key = (getKey fs key).map canon
  | .nil, _ => rfl
  | .cons k v rest, key => by
    simp only [canonObj, getKey]
    split_ifs with h
    · rfl
    · exact getKey_canonObj rest key

lemma objLen2 (fs : JsonObj) (h : lenObj fs = 2) :
    ∃ k1 v1 k2 v2, fs = .cons k1 v1 (.cons k2 v2 .nil) := by
  cases fs with
  | nil => simp [lenObj] at h
  | cons k1 v1 rest =>
    cases rest with
    | nil => simp [lenObj] at h
    | cons k2 v2 rest2 =>
      cases rest2 with
      | nil => exact ⟨k1, v1, k2, v2, rfl⟩
      | cons k3 v3 rest3 => simp [lenObj] at h

lemma objLen3 (fs : JsonObj) (h : lenObj fs = 3) :
    ∃ k1 v1 k2 v2 k3 v3, fs = .cons k1 v1 (.cons k2 v2 (.cons k3 v3 .nil)) := by
  cases fs with
  | nil => simp [lenObj] at h
  | cons k1 v1 rest =>
    cases rest with
    | nil => simp [lenObj] at h
    | cons k2 v2 rest2 =>
      cases rest2 with
      | nil => simp [lenObj] at h
      | cons k3 v3 rest3 =>
        cases rest3 with
        | nil => exact ⟨k1, v1, k2, v2, k3, v3, rfl⟩
        | cons k4 v4 rest4 => simp [lenObj] at h

lemma sortObj_two (kA kB : String) (hne : kA ≠ kB)
    (hAB : keyLe kA.data kB.data = true)
    (hBA : keyLe kB.data kA.data = false)
    (gs : JsonObj) (hlen : lenObj gs = 2) (a b : Json)
    (ha : getKey gs kA = some a) (hb : getKey gs kB = some b) :
    sortObj gs = .cons kA a (.cons kB b .nil) := by
  have hne2 : kB ≠ kA := Ne.symm hne
  obtain ⟨k1, v1, k2, v2, rfl⟩ := objLen2 gs hlen
  simp only [getKey] at ha hb
  split_ifs at ha hb <;> simp_all [sortObj, insObj]

lemma sortObj_three (kA kB kC : String)
    (hneAB : kA ≠ kB) (hneAC : kA ≠ kC) (hneBC : kB ≠ kC)
    (hAB : keyLe kA.data kB.data = true)
    (hAC : keyLe kA.data kC.data = true)
    (hBC : keyLe kB.data kC.data = true)
    (hBA : keyLe kB.data kA.data = false)
    (hCA : keyLe kC.data kA.data = false)
    (hCB : keyLe kC.data kB.data = false)
    (gs : JsonObj) (hlen : lenObj gs = 3) (a b c : Json)
    (ha : getKey gs kA = some a) (hb : getKey gs kB = some b)
    (hc : getKey gs kC = some c) :
    sortObj gs = .cons kA a (.cons kB b (.cons kC c .nil)) := by
  have hne2 : kB ≠ kA := Ne.symm hneAB
  have hne3 : kC ≠ kA := Ne.symm hneAC
  have hne4 : kC ≠ kB := Ne.symm hneBC
  obtain ⟨k1, v1, k2, v2, k3, v3, rfl⟩ := objLen3 gs hlen
  simp only [getKey] at ha hb hc
  split_ifs at ha hb hc <;> simp_all [sortObj, insObj]

end Item26
namespace Item26

lemma machine_roundtrip (j : Json) (h : isNumMachineObj j = true) :
    ∃ m : Machine, machineFromJson j = some m ∧
      canon (Machine.toDict m) = canon j := by
  cases j with
  | null => simp [isNumMachineObj] at h
  | boolean b => simp [isNumMachineObj] at h
  | num q => simp [isNumMachineObj] at h
  | str s => simp [isNumMachineObj] at h
  | arr xs => simp [isNumMachineObj] at h
  | obj fs =>
    simp only [isNumMachineObj, Bool.and_eq_true, beq_iff_eq] at h
    obtain ⟨hlen, hmatch⟩ := h
    split at hmatch
    next c r d hc hr hd =>
      refine ⟨⟨c, r, d⟩, ?_, ?_⟩
      · simp [machineFromJson, hlen, hc, hr, hd]
      · have h1 : getKey (canonObj fs) coresKey = some (.num c) := by
          rw [getKey_canonObj, hc]; rfl
        have h2 : getKey (canonObj fs) ramKey = some (.num r) := by
          rw [getKey_canonObj, hr]; rfl
        have h3 : getKey (canonObj fs) diskKey = some (.num d) := by
          rw [getKey_canonObj, hd]; rfl
        have hs := sortObj_three coresKey diskKey ramKey (by decide) (by decide)
          (by decide) (by decide) (by decide) (by decide) (by decide)
          (by decide) (by decide) (canonObj fs)
          (by rw [lenObj_canonObj]; exact hlen)
          (.num c) (.num d) (.num r) h1 h3 h2
        calc canon (Machine.toDict ⟨c, r, d⟩)
            = .obj (.cons coresKey (.num c) (.cons diskKey (.num d)
                (.cons ramKey (.num r) .nil))) := by rfl
          _ = .obj (sortObj (canonObj fs)) := by rw [hs]
          _ = canon (.obj fs) := rfl
    next => simp at hmatch

lemma switch_roundtrip (j : Json) (h : isNumSwitchObj j = true) :
    ∃ s : Switch, switchFromJson j = some s ∧
      canon (Switch.toDict s) = canon j := by
  cases j with
  | null => simp [isNumSwitchObj] at h
  | boolean b => simp [isNumSwitchObj] at h
  | num q => simp [isNumSwitchObj] at h
  | str s => simp [isNumSwitchObj] at h
  | arr xs => simp [isNumSwitchObj] at h
  | obj fs =>
    simp only [isNumSwitchObj, Bool.and_eq_true, beq_iff_eq] at h
    obtain ⟨hlen, hmatch⟩ := h
    split at hmatch
    next p s hp hs =>
      refine ⟨⟨p, s⟩, ?_, ?_⟩
      · simp [switchFromJson, hlen, hp, hs]
      · have h1 : getKey (canonObj fs) portsKey = some (.num p) := by
          rw [getKey_canonObj, hp]; rfl
        have h2 : getKey (canonObj fs) speedKey = some (.num s) := by
          rw [getKey_canonObj, hs]; rfl
        have hsort := sortObj_two portsKey speedKey (by decide) (by decide)
          (by decide) (canonObj fs) (by rw [lenObj_canonObj]; exact hlen)
          (.num p) (.num s) h1 h2
        calc canon (Switch.toDict ⟨p, s⟩)
            = .obj (.cons portsKey (.num p) (.cons speedKey (.num s) .nil)) := by
              rfl
          _ = .obj (sortObj (canonObj fs)) := by rw [hsort]
          _ = canon (.obj fs) := rfl
    next => simp at hmatch

lemma machines_roundtrip : (ms : JsonArr) →
    arrAll isNumMachineObj ms = true →
    ∃ L : List Machine, machinesFromJson ms = some L ∧
      canonArr (machinesToJson L) = canonArr ms
  | .nil, _ => ⟨[], rfl, rfl⟩
  | .cons j rest, h => by
    simp only [arrAll, Bool.and_eq_true] at h
    obtain ⟨m, hm, hcm⟩ := machine_roundtrip j h.1
    obtain ⟨L, hL, hcL⟩ := machines_roundtrip rest h.2
    refine ⟨m :: L, ?_, ?_⟩
    · simp [machinesFromJson, hm, hL]
    · simp [machinesToJson, canonArr, hcm, hcL]

/-- C5.  Round-trip of `DatacenterRack.from_json` followed by `to_json`: for
every parsed JSON value of the required shape — an object with key `switch`
mapped to an object with numeric `ports` and `speed` and key `machines`
mapped to a list of objects each with numeric `cores`, `ram` and `disk`
(exactly those key sets, as `cls(**kwargs)` requires) — the parse of the
output of `to_json` is, as a Python value (key order canonicalized away),
equal to the input parse.  This is the assertion of item26.py line 128. -/
theorem item26_from_json_to_json_roundtrip (j : Json)
    (h : rackShape j = true) :
    (rackFromJson j).map (fun r => canon (rackToDict r)) = some (canon j) := by
  cases j with
  | null => simp [rackShape] at h
  | boolean b => simp [rackShape] at h
  | num q => simp [rackShape] at h
  | str s => simp [rackShape] at h
  | arr xs => simp [rackShape] at h
  | obj fs =>
    simp only [rackShape, Bool.and_eq_true, beq_iff_eq] at h
    obtain ⟨hlen, hmatch⟩ := h
    split at hmatch
    next sj ms hS hM =>
      rw [Bool.and_eq_true] at hmatch
      obtain ⟨hsw, hms⟩ := hmatch
      obtain ⟨sw, hswEq, hswC⟩ := switch_roundtrip sj hsw
      obtain ⟨L, hLEq, hLC⟩ := machines_roundtrip ms hms
      have lhsEq : rackFromJson (.obj fs) = some ⟨sw, L⟩ := by
        simp [rackFromJson, hlen, hS, hM, hswEq, hLEq]
      rw [lhsEq]
      have h1 : getKey (canonObj fs) machinesKey = some (.arr (canonArr ms)) := by
        rw [getKey_canonObj, hM]; rfl
      have h2 : getKey (canonObj fs) switchKey = some (canon sj) := by
        rw [getKey_canonObj, hS]; rfl
      have hsort := sortObj_two machinesKey switchKey (by decide) (by decide)
        (by decide) (canonObj fs) (by rw [lenObj_canonObj]; exact hlen)
        (.arr (canonArr ms)) (canon sj) h1 h2
      have rhsEq : canon (.obj fs)
          = .obj (.cons machinesKey (.arr (canonArr ms))
              (.cons switchKey (canon sj) .nil)) := by
        rw [show canon (.obj fs) = .obj (sortObj (canonObj fs)) from rfl, hsort]
      have lhs2 : canon (rackToDict ⟨sw, L⟩)
          = .obj (.cons machinesKey (.arr (canonArr (machinesToJson L)))
              (.cons switchKey (canon (Switch.toDict sw)) .nil)) := by rfl
      rw [rhsEq]
      simp only [Option.map_some']
      rw [lhs2, hLC, hswC]
    next => simp at hmatch

end Item26
namespace SourceText

/-- C2 counterexample.  The three most elaborate pieces are their whole
files (the examples build on definitions spread through the file): they have
131, 153 and 121 lines respectively, so none is fewer than 60 lines long. -/
theorem elaborate_examples_not_under_60_lines :
    (item26_py.length, item24_py.length, item30_py.length) = (131, 153, 121) ∧
    ¬ (item26_py.length < 60 ∧ item24_py.length < 60 ∧
        item30_py.length < 60) := by
  exact ⟨by decide, by decide⟩

/-- C2 (amended).  The mix-in dict/JSON serialization example (item26.py),
the MapReduce toy example (item24.py) and the quota-bucket `@property`
example (item30.py) are each fewer than 160 lines long. -/
theorem elaborate_examples_under_160_lines :
    item26_py.length < 160 ∧ item24_py.length < 160 ∧
      item30_py.length < 160 := by
  exact ⟨by decide, by decide, by decide⟩

/-- C3.  Every snippet file is self-contained: every line of every file of
src/ that contains `import ` is one of the twelve standard-library import
statements of `allowedImports`; no file uses `__import__`; and no allowed
statement imports a sibling `item*` file.  In Python, a module importing no
sibling module can neither reference nor read nor mutate a definition of
one (names of another module are unreachable without importing it), so each
file's behaviour depends only on its own definitions, its inputs and the
standard library. -/
theorem snippet_files_self_contained :
    (srcFiles.all (fun f =>
        f.2.all (fun l =>
          !(strHasSub l importWord) || allowedImports.contains l))) = true ∧
    (srcFiles.all (fun f =>
        f.2.all (fun l => !(strHasSub l dunderImportWord)))) = true ∧
    (allowedImports.all (fun l => !(strHasSub l itemWord))) = true ∧
    srcFiles.length = 29 := by
  exact ⟨by decide, by decide, by decide, by decide⟩

end SourceText

namespace Item26

/-- C5 witness: the round-trip theorem applied to the parse of the
`serialized` literal of item26.py (lines 118-125), the very value whose
round-trip the file asserts at line 128. -/
theorem item26_from_json_to_json_roundtrip_witness :
    (rackFromJson serializedExample).map (fun r => canon (rackToDict r))
      = some (canon serializedExample) :=
  item26_from_json_to_json_roundtrip serializedExample (by decide)

end Item26

namespace Item24

/-- C6.  `LineCountWorker.map` computes the newline count of the input data
only into the local variable `count` and never assigns the worker's
`result` attribute: after `map` returns, `result` holds the same value as
before the call — `none`, as `__init__` set it, when the worker is fresh —
while the local variable holds the newline count. -/
theorem line_count_map_never_assigns_result :
    (∀ w : LineCountWorker, (w.map).1.result = w.result) ∧
    (∀ w : LineCountWorker, (w.map).2 = countNewlines w.input_data) ∧
    (∀ d : String, ((LineCountWorker.new d).map).1.result = none) :=
  ⟨fun _ => rfl, fun _ => rfl, fun _ => rfl⟩

/-- C7.  The elaborate examples perform no I/O error handling:
`PathInputData.read` returns an error exactly when `open` errors (the error
propagating unchanged) or `open` succeeds and `.read()` errors; and none
of item24.py, item26.py and item30.py contains the substring `try`, so no
statement of the MapReduce, serialization or quota-bucket examples catches
any exception, I/O errors included. -/
theorem path_input_data_read_propagates_errors :
    (∀ (H E : Type) (openF : String → Except E H)
        (readF : H → Except E String) (path : String) (e : E),
        pathInputDataRead openF readF path = .error e ↔
          openF path = .error e ∨
            ∃ h, openF path = .ok h ∧ readF h = .error e) ∧
    ((SourceText.item24_py.all
        (fun l => !(SourceText.strHasSub l SourceText.tryWord))) = true ∧
     (SourceText.item26_py.all
        (fun l => !(SourceText.strHasSub l SourceText.tryWord))) = true ∧
     (SourceText.item30_py.all
        (fun l => !(SourceText.strHasSub l SourceText.tryWord))) = true) := by
  constructor
  · intro H E openF readF path e
    cases hop : openF path with
    | error e2 => simp [pathInputDataRead, hop, Except.bind]
    | ok h => simp [pathInputDataRead, hop, Except.bind]
  · exact ⟨by decide, by decide, by decide⟩

/-- C8.  The MapReduce example provides no concurrency safety: `execute`
creates and starts one thread per worker (so all `map` calls run between
their `start` and `join` with no mutual exclusion), the only synchronization
it performs is joining every thread, and every join precedes every `reduce`
call; the file imports only `Thread` from `threading` and mentions no lock,
semaphore, condition or `acquire` at all. -/
theorem execute_one_thread_per_worker_no_locks :
    (∀ n : Nat,
      ((executeEvents n).count ThreadEvent.create = n ∧
       (executeEvents n).count ThreadEvent.start = n ∧
       (executeEvents n).count ThreadEvent.joinThread = n) ∧
      ∃ pre post, executeEvents n = pre ++ post ∧
        pre.count ThreadEvent.joinThread = n ∧
        (∀ e ∈ pre, e ≠ ThreadEvent.reduceCall) ∧
        (∀ e ∈ post, e = ThreadEvent.reduceCall)) ∧
    ((SourceText.item24_py.filter
        (fun l => SourceText.strHasSub l SourceText.threadingWord))
      = [SourceText.threadImportLine]) ∧
    ((SourceText.item24_py.all (fun l =>
        !(SourceText.strHasSub l SourceText.lockWord) &&
        !(SourceText.strHasSub l SourceText.semaphoreWord) &&
        !(SourceText.strHasSub l SourceText.conditionWord) &&
        !(SourceText.strHasSub l SourceText.acquireWord))) = true) := by
  refine ⟨?_, by decide, by decide⟩
  intro n
  constructor
  · refine ⟨?_, ?_, ?_⟩ <;>
      simp [executeEvents, List.count_append, List.count_replicate]
  · refine ⟨List.replicate n .create ++ List.replicate n .start ++
      List.replicate n .joinThread, List.replicate (n - 1) .reduceCall,
      by simp [executeEvents], ?_, ?_, ?_⟩
    · simp [List.count_append, List.count_replicate]
    · intro e he
      simp only [List.mem_append, List.mem_replicate] at he
      rcases he with (⟨-, rfl⟩ | ⟨-, rfl⟩) | ⟨-, rfl⟩ <;> decide
    · intro e he
      simp only [List.mem_replicate] at he
      exact he.2

end Item24

namespace Item30

lemma setQuota_frame (b : Bucket1) (a : Int) (b2 : Bucket1)
    (h : setQuota b a = some b2) :
    b2.period_delta = b.period_delta ∧ b2.reset_time = b.reset_time := by
  simp only [setQuota] at h
  split_ifs at h <;> (cases h; exact ⟨rfl, rfl⟩)

/-- C9.  The quota-bucket example has no persistence: `fill`, `deduct` and
the `quota` setter are pure transformations of the bucket record passed to
them — the setter and `deduct` never touch `period_delta` or `reset_time`,
`fill` never touches `period_delta` — and the source lines of `fill`,
`deduct` (item30.py lines 17-32) and of the `quota` property (lines 71-89)
contain no `open`, `print`, `write`, `global` or `import`, so the functions
write no file and have no externally visible effect. -/
theorem bucket_operations_no_persistence :
    ((∀ (now : Int) (b : Bucket0) (a : Int),
        (fill0 now b a).period_delta = b.period_delta) ∧
     (∀ (now : Int) (b : Bucket0) (a : Int),
        (deduct0 now b a).1.period_delta = b.period_delta ∧
        (deduct0 now b a).1.reset_time = b.reset_time) ∧
     (∀ (b : Bucket1) (a : Int) (b2 : Bucket1), setQuota b a = some b2 →
        b2.period_delta = b.period_delta ∧ b2.reset_time = b.reset_time) ∧
     (∀ (now : Int) (b : Bucket1) (a : Int) (b2 : Bucket1),
        fill1 now b a = some b2 → b2.period_delta = b.period_delta) ∧
     (∀ (now : Int) (b : Bucket1) (a : Int) (s : Bucket1 × Bool),
        deduct1 now b a = some s → s.1.period_delta = b.period_delta ∧
          s.1.reset_time = b.reset_time)) ∧
    ((SourceText.fillDeductLines.all SourceText.hasNoEffectWord) = true ∧
     (SourceText.quotaPropertyLines.all SourceText.hasNoEffectWord) = true ∧
     SourceText.fillDeductLines.length = 16 ∧
     SourceText.quotaPropertyLines.length = 19) := by
  refine ⟨⟨?_, ?_, ?_, ?_, ?_⟩, by decide, by decide, by decide, by decide⟩
  · intro now b a
    simp only [fill0]
    split_ifs <;> rfl
  · intro now b a
    simp only [deduct0]
    split_ifs <;> exact ⟨rfl, rfl⟩
  · exact fun b a b2 h => setQuota_frame b a b2 h
  · intro now b a b2 h
    simp only [fill1] at h
    split_ifs at h with hexp
    · rcases ho : setQuota b 0 with _ | bb
      · rw [ho] at h; simp at h
      · rw [ho] at h
        simp only [Option.map_some', Option.some_bind] at h
        have h2 := setQuota_frame _ _ _ h
        have h1 := setQuota_frame _ _ _ ho
        rw [h2.1]
        exact h1.1
    · simp only [Option.some_bind] at h
      exact (setQuota_frame _ _ _ h).1
  · intro now b a s h
    simp only [deduct1] at h
    split_ifs at h with hexp hneg
    · cases h; exact ⟨rfl, rfl⟩
    · cases h; exact ⟨rfl, rfl⟩
    · rcases ho : setQuota b (b.quota - a) with _ | bb
      · rw [ho] at h; simp at h
      · rw [ho] at h
        simp only [Option.map_some'] at h
        cases h
        exact setQuota_frame _ _ _ ho

end Item30
